import Mathlib

/-!
# reminders_cli: reminder service, repository and file database

A shallow embedding of `server/services/reminders.go`, `server/services/background.go`,
`server/services/http.go`, `server/repositories/reminder.go`, `server/repositories/db.go` and
`server/controllers/mux.go`, followed by the properties of the specification that were
checked against it.

Modelling conventions.

* Go `int`, `time.Duration` and reminder ids are `Int`.  A `time.Time` is its wall-clock
  reading in nanoseconds since the Unix epoch (an exact `Int`); `UnixNano` is the only
  operation of the code that truncates it to an int64, and wraps here as it does there.
* Every `time.Now()` of a method is an explicit argument, one per call site, in source order.
* A Go map is a finite map with distinct keys (`AList`).  Maps are reference values: a method
  with a value receiver still writes the caller's maps through `m[k] = v` and `delete`, but an
  assignment to a field of its receiver is lost when it returns.
* Logging has no effect on the state and is left out.
-/

namespace RemindersCli

/-! ## Time -/

/-- Wall-clock instant in nanoseconds since the Unix epoch. -/
abbrev Time := Int

/-- Nanosecond count of a `time.Duration` (an int64 in the source). -/
abbrev DurationNs := Int

/-- Two's-complement truncation of an integer to int64. -/
def wrapInt64 (x : Int) : Int := (x + 2 ^ 63) % 2 ^ 64 - 2 ^ 63

/-- The instant `t.Add(d)`. -/
def Time.Add (t : Time) (d : DurationNs) : Time := t + d

/-- The int64 `t.UnixNano()`; it wraps outside the years 1678..2262. -/
def Time.UnixNano (t : Time) : Int := wrapInt64 t

/-- The zero `time.Time` (1 January of year 1, UTC). -/
def Time.zero : Time := -62135596800 * 1000000000

/-- The constant `time.Hour`. -/
def Hour : DurationNs := 3600 * 1000000000

/-- The constant `time.Second`. -/
def Second : DurationNs := 1000000000

/-! ## models -/

/-- The struct `models.Reminder`. -/
structure Reminder where
  ID : Int
  Title : String
  Message : String
  Duration : DurationNs
  RetryPeriod : DurationNs
  CreatedAt : Time
  ModifiedAt : Time
deriving DecidableEq, Repr

/-- The zero value `models.Reminder{}`. -/
def Reminder.zero : Reminder :=
  { ID := 0, Title := "", Message := "", Duration := 0, RetryPeriod := 0,
    CreatedAt := Time.zero, ModifiedAt := Time.zero }

/-- Modelled from the spec: the error values of package `models`, whose declarations
(`DataValidationError`, `FormatValidationError`, `NotFoundError`, `WrapError`) are not among
the sources. Each carries the message the caller built; `Wrapped` is `models.WrapError`,
and `Library` stands for an error returned by `os` or `encoding/json`. -/
inductive Error where
  | DataValidationError (Message : String)
  | FormatValidationError (Message : String)
  | NotFoundError (Message : String)
  | Library (Message : String)
  | Wrapped (Message : String) (err : Error)
deriving DecidableEq, Repr

/-- Validation errors of the taxonomy: the two `...ValidationError` types. -/
def Error.isValidation : Error → Bool
  | .DataValidationError _ => true
  | .FormatValidationError _ => true
  | _ => false

/-- Not-found errors of the taxonomy. -/
def Error.isNotFound : Error → Bool
  | .NotFoundError _ => true
  | _ => false

/-- The message an error carries. -/
def Error.Message : Error → String
  | .DataValidationError m => m
  | .FormatValidationError m => m
  | .NotFoundError m => m
  | .Library m => m
  | .Wrapped m _ => m

/-! ## Text helpers of the Go library -/

/-- The predicate `unicode.IsSpace`. -/
def isSpace (c : Char) : Bool :=
  c.val.toNat ∈ [0x09, 0x0A, 0x0B, 0x0C, 0x0D, 0x20, 0x85, 0xA0, 0x1680, 0x2028, 0x2029,
    0x202F, 0x205F, 0x3000] || (0x2000 ≤ c.val.toNat && c.val.toNat ≤ 0x200A)

/-- The function `strings.TrimSpace`: drops leading and trailing white space. -/
def TrimSpace (s : String) : String :=
  String.mk ((s.data.dropWhile isSpace).reverse.dropWhile isSpace).reverse

/-- The verb `%d` of `fmt.Sprintf` on an int. -/
def fmtInt (n : Int) : String := toString n

/-- The verb `%v` of `fmt.Sprintf` on a `[]int`: the elements between brackets, separated
by one space. -/
def fmtInts (ns : List Int) : String :=
  "[" ++ String.intercalate " " (ns.map fmtInt) ++ "]"

/-! ## services: the snapshot -/

/-- The inner `map[int]models.Reminder` of a `RemindersMap`. Every inner map the program
builds is a one-entry literal (in `Create`, `Edit`, `retry`, `snapshotGrooming` and the
repository `Filter`), so it is represented by that entry: the positional index and the
reminder. -/
structure Entry where
  index : Int
  reminder : Reminder
deriving DecidableEq, Repr

/-- The type `services.RemindersMap`, `map[int]map[int]models.Reminder`. -/
abbrev RemindersMap := AList (fun _ : Int => Entry)

/-- Number of keys, `len(m)`. -/
def len (m : RemindersMap) : Int := (m.entries.length : Int)

/-- The method `RemindersMap.flatten`: index and reminder of `rm[id]`. For an absent id
`rm[id]` is the nil map, the loop body never runs and both results keep their zero value. -/
def flatten (rm : RemindersMap) (id : Int) : Int × Reminder :=
  match rm.lookup id with
  | none => (0, Reminder.zero)
  | some e => (e.index, e.reminder)

/-- The struct `services.Snapshot`. -/
structure Snapshot where
  All : RemindersMap
  Uncompleted : RemindersMap

/-- The interface `services.ReminderRepository`, as a method table over the state `σ` of the
object behind the interface value. Each method returns the new state of that object along
with its results; `Filter` takes `none` for a nil filter function. -/
structure ReminderRepository (σ : Type) where
  Save : σ → List Reminder → σ × Int × Option Error
  Filter : σ → Option (Reminder → Bool) → σ × RemindersMap × Option Error
  NextID : σ → σ × Int

/-- The struct `services.Reminders`: the state of the repository it points to and the
snapshot whose two maps it references. -/
structure Reminders (σ : Type) where
  repo : σ
  Snapshot : Snapshot

/-- The constructor `NewReminders`: both maps empty. -/
def NewReminders {σ : Type} (repo : σ) : Reminders σ :=
  { repo := repo, Snapshot := { All := ∅, Uncompleted := ∅ } }

/-- The struct `ReminderCreateBody`. -/
structure ReminderCreateBody where
  Title : String
  Message : String
  Duration : DurationNs
  RetryPeriod : DurationNs
deriving DecidableEq, Repr

/-- The struct `ReminderEditBody`. -/
structure ReminderEditBody where
  ID : Int
  Title : String
  Message : String
  Duration : DurationNs
  RetryPeriod : DurationNs
deriving DecidableEq, Repr

/-! ## services: the methods of `Reminders`

All methods have a value receiver `rs Reminders`. The result of each function below is what
the caller's `*Reminders` holds once the method has returned, followed by the values the
method returns. -/

/-- The filter function `Populate` passes for the uncompleted reminders. The clock it reads
each time it is applied is represented by the one instant `now`. -/
def dueAfter (now : Time) (r : Reminder) : Bool :=
  decide (Time.UnixNano (Time.Add r.ModifiedAt r.Duration) > Time.UnixNano now)

/-- The body of `Populate`, run on the receiver: the local copy `rs` of the struct as it is
when the method returns, and the returned error. Lines 64 and 65 assign the fields `All` and
`Uncompleted` of this copy. -/
def PopulateLocal {σ : Type} (R : ReminderRepository σ) (rs : Reminders σ) (now : Time) :
    Reminders σ × Option Error :=
  match R.Filter rs.repo none with
  | (repo1, all, err) =>
    match err with
    | some e => ({ rs with repo := repo1 }, some (.Wrapped "could not get all reminders" e))
    | none =>
      match R.Filter repo1 (some (dueAfter now)) with
      | (repo2, uncompleted, err) =>
        match err with
        | some e =>
          ({ rs with repo := repo2 }, some (.Wrapped "could not get uncompleted reminders" e))
        | none =>
          ({ repo := repo2, Snapshot := { All := all, Uncompleted := uncompleted } }, none)

/-- The method `Populate` as its caller sees it (`b.service.Populate()` in `Backend.Start`).
The receiver is passed by value, so the two field assignments reach only the copy; the
caller keeps its own `Snapshot`, whose maps were not written, and sees the repository in the
state the two `Filter` calls left it. -/
def Populate {σ : Type} (R : ReminderRepository σ) (rs : Reminders σ) (now : Time) :
    Reminders σ × Option Error :=
  ({ rs with repo := (PopulateLocal R rs now).1.repo }, (PopulateLocal R rs now).2)

/-- The method `Create`. `t1` and `t2` are the readings of the two `time.Now()` calls of the
struct literal (`CreatedAt`, then `ModifiedAt`). -/
def Create {σ : Type} (R : ReminderRepository σ) (rs : Reminders σ) (body : ReminderCreateBody)
    (t1 t2 : Time) : Reminders σ × Reminder × Option Error :=
  match R.NextID rs.repo with
  | (repo1, nextID) =>
    if body.Title = "" then
      ({ rs with repo := repo1 }, Reminder.zero,
        some (.DataValidationError "title cannot be empty"))
    else if body.Message = "" then
      ({ rs with repo := repo1 }, Reminder.zero,
        some (.DataValidationError "message cannot be empty"))
    else if body.Duration = 0 then
      ({ rs with repo := repo1 }, Reminder.zero,
        some (.DataValidationError "duration cannot be 0"))
    else if body.RetryPeriod = 0 then
      ({ rs with repo := repo1 }, Reminder.zero,
        some (.DataValidationError "retry period cannot be 0"))
    else
      let reminder : Reminder :=
        { ID := nextID, Title := body.Title, Message := body.Message,
          Duration := body.Duration, RetryPeriod := body.RetryPeriod,
          CreatedAt := t1, ModifiedAt := t2 }
      let index := len rs.Snapshot.All
      let all := rs.Snapshot.All.insert reminder.ID ⟨index, reminder⟩
      let uncompleted := rs.Snapshot.Uncompleted.insert reminder.ID ⟨index, reminder⟩
      ({ repo := repo1, Snapshot := { All := all, Uncompleted := uncompleted } }, reminder, none)

/-- The reminder `Edit` has built when it reaches the `changed` test, and the value of
`changed` (lines 134 to 151). -/
def applyEdit (reminder : Reminder) (reminderBody : ReminderEditBody) : Reminder × Bool :=
  let c1 := TrimSpace reminderBody.Title != ""
  let r1 := if c1 then { reminder with Title := reminderBody.Title } else reminder
  let c2 := TrimSpace reminderBody.Message != ""
  let r2 := if c2 then { r1 with Message := reminderBody.Message } else r1
  let c3 := reminderBody.Duration != 0
  let r3 := if c3 then { r2 with Duration := reminderBody.Duration } else r2
  let c4 := reminderBody.RetryPeriod != 0
  let r4 := if c4 then { r3 with RetryPeriod := reminderBody.RetryPeriod } else r3
  (r4, c1 || c2 || c3 || c4)

/-- The method `Edit`. `t1` is the reading stored in `ModifiedAt` (line 158), `t2` the reading
of the `time.Now()` in the comparison of line 160. -/
def Edit {σ : Type} (rs : Reminders σ) (reminderBody : ReminderEditBody) (t1 t2 : Time) :
    Reminders σ × Reminder × Option Error :=
  match rs.Snapshot.All.lookup reminderBody.ID with
  | none =>
    (rs, Reminder.zero,
      some (.NotFoundError ("could not find reminder with id: " ++ fmtInt reminderBody.ID)))
  | some _ =>
    let index := (flatten rs.Snapshot.All reminderBody.ID).1
    match applyEdit (flatten rs.Snapshot.All reminderBody.ID).2 reminderBody with
    | (edited, changed) =>
      if !changed then
        (rs, Reminder.zero, some (.FormatValidationError
          "body must contain at least 1 of: 'title', 'message', 'duration', 'retryPeriod'"))
      else
        let reminder := { edited with ModifiedAt := t1 }
        let all := rs.Snapshot.All.insert reminder.ID ⟨index, reminder⟩
        let uncompleted :=
          if Time.UnixNano reminder.ModifiedAt
              < Time.UnixNano (Time.Add t2 reminderBody.Duration) then
            rs.Snapshot.Uncompleted.insert reminder.ID ⟨index, reminder⟩
          else
            rs.Snapshot.Uncompleted.erase reminder.ID
        ({ rs with Snapshot := { All := all, Uncompleted := uncompleted } }, reminder, none)

/-- The ids of the list that are not keys of `All`, in list order (the slice `notFound` of
`Fetch` and `Delete`). -/
def notFoundIDs (all : RemindersMap) (ids : List Int) : List Int :=
  ids.filter (fun id => (all.lookup id).isNone)

/-- The method `Fetch`. -/
def Fetch {σ : Type} (rs : Reminders σ) (ids : List Int) : List Reminder × Option Error :=
  let reminders :=
    (ids.filter (fun id => (rs.Snapshot.All.lookup id).isSome)).map
      (fun id => (flatten rs.Snapshot.All id).2)
  let notFound := notFoundIDs rs.Snapshot.All ids
  if notFound.length > 0 then
    ([], some (.NotFoundError ("could not find reminders with ids: " ++ fmtInts notFound)))
  else
    (reminders, none)

/-- The second loop of `Delete`: each id is deleted from both maps. -/
def deleteAll (s : Snapshot) (ids : List Int) : Snapshot :=
  ids.foldl (fun s id => { All := s.All.erase id, Uncompleted := s.Uncompleted.erase id }) s

/-- The method `Delete`. -/
def Delete {σ : Type} (rs : Reminders σ) (ids : List Int) : Reminders σ × Option Error :=
  let notFound := notFoundIDs rs.Snapshot.All ids
  if notFound.length > 0 then
    (rs, some (.NotFoundError ("could not find reminders with ids: " ++ fmtInts notFound)))
  else
    ({ rs with Snapshot := deleteAll rs.Snapshot ids }, none)

/-- The method `snapshot`. -/
def snapshot {σ : Type} (rs : Reminders σ) : Snapshot := rs.Snapshot

/-- One iteration of the loop of `snapshotGrooming`. -/
def groomOne (s : Snapshot) (reminder : Reminder) : Snapshot :=
  let uncompleted := s.Uncompleted.erase reminder.ID
  let reminder := { reminder with Duration := -Hour }
  let index := (flatten s.All reminder.ID).1
  { All := s.All.insert reminder.ID ⟨index, reminder⟩, Uncompleted := uncompleted }

/-- The method `snapshotGrooming` (the groom hook of the notifier). -/
def snapshotGrooming {σ : Type} (rs : Reminders σ) (notifiedReminders : List Reminder) :
    Reminders σ :=
  { rs with Snapshot := notifiedReminders.foldl groomOne rs.Snapshot }

/-- The method `retry`; `now` is the reading of its `time.Now()`. -/
def retry {σ : Type} (rs : Reminders σ) (reminder : Reminder) (now : Time) : Reminders σ :=
  let reminder := { reminder with ModifiedAt := now }
  let reminder := { reminder with Duration := reminder.RetryPeriod }
  let index := (flatten rs.Snapshot.All reminder.ID).1
  { rs with Snapshot :=
      { All := rs.Snapshot.All.insert reminder.ID ⟨index, reminder⟩,
        Uncompleted := rs.Snapshot.Uncompleted.insert reminder.ID ⟨index, reminder⟩ } }

/-- The write `reminders[i] = reminder` on a slice: `none` is the index-out-of-range panic. -/
def sliceSet (reminders : List Reminder) (i : Int) (reminder : Reminder) :
    Option (List Reminder) :=
  if 0 ≤ i ∧ i < reminders.length then some (reminders.set i.toNat reminder) else none

/-- The slice `save` hands to the repository: `len(All)` zero values, then one write per
entry of `All` at the entry's positional index. The entries are visited in the order the
map holds them (Go leaves the order unspecified; the slice depends on it only when two
entries share an index). `none` is the index-out-of-range panic. -/
def saveSlice (all : RemindersMap) : Option (List Reminder) :=
  all.entries.foldl
    (fun acc e => acc.bind (fun reminders => sliceSet reminders e.2.index e.2.reminder))
    (some (List.replicate all.entries.length Reminder.zero))

/-- The method `save`; `none` is the panic of `saveSlice`. -/
def save {σ : Type} (R : ReminderRepository σ) (rs : Reminders σ) :
    Option (Reminders σ × Option Error) :=
  match saveSlice rs.Snapshot.All with
  | none => none
  | some reminders =>
    match R.Save rs.repo reminders with
    | (repo1, _, some err) =>
      some ({ rs with repo := repo1 }, some (.Wrapped "could not save snapshot" err))
    | (repo1, _, none) => some ({ rs with repo := repo1 }, none)

/-! ## repositories: the file database `DB`

The two files are the only part of the file system the program touches. The database file
holds raw bytes. The config file is only ever produced by `json.Marshal` of a `dbConfig` and
consumed by `json.Unmarshal` into one, so its content is represented by what it decodes to.
The functions of `crypto/sha256` and `encoding/json` the repository calls are parameters. -/

/-- Raw file content. -/
abbrev Bytes := List UInt8

/-- The struct `dbConfig`. -/
structure dbConfig where
  ID : Int
  Checksum : String
deriving DecidableEq, Repr

/-- Content of the config file: no bytes at all, bytes that `json.Unmarshal` decodes to the
given `dbConfig`, or bytes it rejects. -/
inductive CfgBytes where
  | empty
  | json (cfg : dbConfig)
  | malformed
deriving DecidableEq, Repr

/-- The two files; `none` is a file that does not exist. -/
structure Disk where
  dbFile : Option Bytes
  cfgFile : Option CfgBytes
deriving DecidableEq, Repr

/-- Library functions the repository calls: the hexadecimal SHA-256 digest of a byte string,
and `json.Marshal` and `json.Unmarshal` on a `[]models.Reminder` (`none` is an error). -/
structure Library where
  sha256hex : Bytes → String
  jsonMarshal : List Reminder → Option Bytes
  jsonUnmarshal : Bytes → Option (List Reminder)

/-- Outcome the operating system gives one `writeFile`: success, failure of `os.Create`
(the file is left as it was), or failure of `Write` after `n` bytes went out to the
truncated file. -/
inductive Fault where
  | ok
  | create
  | write (n : Nat)
deriving DecidableEq, Repr

/-- The struct `DB` (its two paths are constants and left out). -/
structure DB where
  cfg : dbConfig
  db : Bytes
deriving DecidableEq, Repr

/-- The constructor `NewDB`: zero config, nil payload. -/
def NewDB : DB := { cfg := { ID := 0, Checksum := "" }, db := [] }

/-- The function `genChecksum` on the bytes of a `bytes.Reader` (copying from it cannot fail). -/
def genChecksum (L : Library) (bts : Bytes) : String := L.sha256hex bts

/-- The method `readDBFile` on the database file: opens it, creating it empty when it does
not exist, and reads it whole. `fail` is an error of `os.OpenFile` or `os.Create`. -/
def readDBFile (d : Disk) (fail : Bool) : Disk × Option Bytes :=
  if fail then (d, none)
  else
    match d.dbFile with
    | none => ({ d with dbFile := some [] }, some [])
    | some bts => (d, some bts)

/-- The method `readDBFile` on the config file. -/
def readCfgFile (d : Disk) (fail : Bool) : Disk × Option CfgBytes :=
  if fail then (d, none)
  else
    match d.cfgFile with
    | none => ({ d with cfgFile := some .empty }, some .empty)
    | some c => (d, some c)

/-- The method `Start`. `failCfg` and `failDB` say whether opening the config file and the
database file fails. The test of line 57 reads the field `db.cfg.Checksum` of the receiver,
not the `cfg` just decoded. -/
def DB.Start (L : Library) (db : DB) (d : Disk) (failCfg failDB : Bool) :
    DB × Disk × Option Error :=
  match readCfgFile d failCfg with
  | (d1, none) =>
    (db, d1, some (.Wrapped "could not read db config contents"
      (.Wrapped "could not open or create db file" (.Library "open"))))
  | (d1, some .malformed) =>
    (db, d1, some (.Wrapped "could not unmarshal db config" (.Library "json")))
  | (d1, some cfgBytes) =>
    let cfg : dbConfig :=
      match cfgBytes with
      | .json c => c
      | _ => { ID := 0, Checksum := "" }
    match readDBFile d1 failDB with
    | (d2, none) =>
      (db, d2, some (.Wrapped "could not read db contents"
        (.Wrapped "could not open or create db file" (.Library "open"))))
    | (d2, some bts) =>
      let cfg := if db.cfg.Checksum = "" then { cfg with Checksum := genChecksum L bts } else cfg
      ({ cfg := cfg, db := bts }, d2, none)

/-- The method `writeFile` on the database file: bytes written and error. -/
def writeDBFile (d : Disk) (bts : Bytes) (f : Fault) : Disk × Int × Option Error :=
  match f with
  | .ok => ({ d with dbFile := some bts }, (bts.length : Int), none)
  | .create => (d, 0, some (.Wrapped "could not create file" (.Library "create")))
  | .write n => ({ d with dbFile := some (bts.take n) }, (n : Int), some (.Library "write"))

/-- The method `writeDBCfg`: marshals `db.cfg`, appends a newline and writes the config file. -/
def writeDBCfg (db : DB) (d : Disk) (f : Fault) : Disk × Option Error :=
  match f with
  | .ok => ({ d with cfgFile := some (.json db.cfg) }, none)
  | .create =>
    (d, some (.Wrapped "could not write to db cfg file"
      (.Wrapped "could not create file" (.Library "create"))))
  | .write n =>
    ({ d with cfgFile := some (if n = 0 then .empty else .malformed) },
      some (.Wrapped "could not write to db cfg file" (.Library "write")))

/-- The method `Write`. `fCfg` and `fDB` are the outcomes of the two file writes, should the
method reach them. -/
def DB.Write (L : Library) (db : DB) (d : Disk) (bts : Bytes) (fCfg fDB : Fault) :
    DB × Disk × Int × Option Error :=
  let bts := bts ++ [10]
  let checksum := genChecksum L bts
  if db.cfg.Checksum = checksum then (db, d, 0, none)
  else
    let db := { db with cfg := { db.cfg with Checksum := checksum } }
    match writeDBCfg db d fCfg with
    | (d1, some err) => (db, d1, 0, some err)
    | (d1, none) =>
      match writeDBFile d1 bts fDB with
      | (d2, _, some err) => (db, d2, 0, some err)
      | (d2, n, none) => ({ db with db := bts }, d2, n, none)

/-- The method `Size`: an empty payload is first replaced by the two bytes of an empty
JSON array. -/
def DB.Size (db : DB) : DB × Int :=
  if db.db.length = 0 then ({ db with db := [91, 93] }, 2) else (db, (db.db.length : Int))

/-- The method `Read` into a buffer of `size` bytes: the part `bts[:n]` the caller uses. A
`bytes.Reader` fails only with `io.EOF`, which the method swallows. -/
def DB.Read (db : DB) (size : Int) : Bytes × Option Error :=
  (db.db.take size.toNat, none)

/-- The method `GenerateID`. -/
def DB.GenerateID (db : DB) : DB × Int :=
  ({ db with cfg := { db.cfg with ID := db.cfg.ID + 1 } }, db.cfg.ID + 1)

/-- The method `Stop`: each file is written only when `os.Open` reports that it does not
exist. -/
def DB.Stop (db : DB) (d : Disk) (fDB fCfg : Fault) : Disk × Option Error :=
  let missingDB := d.dbFile.isNone
  let missingCfg := d.cfgFile.isNone
  match (if missingDB then writeDBFile d db.db fDB else (d, 0, none)) with
  | (d1, _, some err) => (d1, some err)
  | (d1, _, none) =>
    if missingCfg then writeDBCfg db d1 fCfg else (d1, none)

/-! ## repositories: the repository `Reminders` over the file database -/

/-- State behind a `repositories.Reminders`: the `DB` it points to and the files. -/
structure Store where
  db : DB
  disk : Disk
deriving DecidableEq, Repr

/-- The method `Save` of the repository. -/
def RepoSave (L : Library) (fCfg fDB : Fault) (st : Store) (reminders : List Reminder) :
    Store × Int × Option Error :=
  match L.jsonMarshal reminders with
  | none => (st, 0, some (.Library "json"))
  | some bts =>
    match DB.Write L st.db st.disk bts fCfg fDB with
    | (db1, d1, _, some err) => ({ db := db1, disk := d1 }, 0, some err)
    | (db1, d1, n, none) => ({ db := db1, disk := d1 }, n, none)

/-- The loop of `Filter`: the decoded reminders, with their positions, that pass the filter;
a later reminder replaces an earlier one with the same id. -/
def buildMap (filterFn : Option (Reminder → Bool)) (reminders : List Reminder) : RemindersMap :=
  reminders.enum.foldl
    (fun rMap p =>
      if filterFn.isNone || (filterFn.getD (fun _ => true)) p.2 then
        rMap.insert p.2.ID ⟨(p.1 : Int), p.2⟩
      else rMap)
    ∅

/-- The method `Filter` of the repository. -/
def RepoFilter (L : Library) (st : Store) (filterFn : Option (Reminder → Bool)) :
    Store × RemindersMap × Option Error :=
  match DB.Size st.db with
  | (db1, size) =>
    match DB.Read db1 size with
    | (_, some err) => ({ st with db := db1 }, ∅, some (.Wrapped "could not read from db" err))
    | (bts, none) =>
      match L.jsonUnmarshal bts with
      | none =>
        ({ st with db := db1 }, ∅, some (.Wrapped "could not unmarshal json" (.Library "json")))
      | some reminders => ({ st with db := db1 }, buildMap filterFn reminders, none)

/-- The method `NextID` of the repository. -/
def RepoNextID (st : Store) : Store × Int :=
  ({ st with db := (DB.GenerateID st.db).1 }, (DB.GenerateID st.db).2)

/-- The repository `repositories.Reminders` behind the interface the service holds, for given
outcomes of the file writes of `Save`. -/
def fileRepo (L : Library) (fCfg fDB : Fault) : ReminderRepository Store :=
  { Save := RepoSave L fCfg fDB, Filter := RepoFilter L, NextID := RepoNextID }

/-! ## Concrete inputs used in the examples -/

/-- An in-memory repository: the stored reminders and the id counter. `Save` replaces the
stored reminders, `Filter` builds its map from them as the file repository does, `NextID`
increments the counter. -/
def memRepo : ReminderRepository (List Reminder × Int) :=
  { Save := fun st reminders => ((reminders, st.2), (reminders.length : Int), none)
    Filter := fun st filterFn => (st, buildMap filterFn st.1, none)
    NextID := fun st => ((st.1, st.2 + 1), st.2 + 1) }

/-- A reminder with id 1, created at instant 1000, due two seconds later. -/
def rent : Reminder :=
  { ID := 1, Title := "Pay rent", Message := "due today", Duration := 2 * Second,
    RetryPeriod := 5 * Second, CreatedAt := 1000, ModifiedAt := 1000 }

/-- The create body of scenario A of the specification. -/
def rentBody : ReminderCreateBody :=
  { Title := "Pay rent", Message := "due today", Duration := 2 * Second,
    RetryPeriod := 5 * Second }

/-- The service after `Create` of `rentBody` at instant 1000 on an empty in-memory repository:
one reminder, id 1, index 0. -/
def oneRent : Reminders (List Reminder × Int) :=
  (Create memRepo (NewReminders ([], 0)) rentBody 1000 1000).1

/-- The service `oneRent` after a second `Create`, one hundred seconds later. -/
def twoRents : Reminders (List Reminder × Int) :=
  (Create memRepo oneRent rentBody (1000 + 100 * Second) (1000 + 100 * Second)).1

/-- The service after `Create` of a one-hour reminder at instant 1000. -/
def oneHour : Reminders (List Reminder × Int) :=
  (Create memRepo (NewReminders ([], 0)) { rentBody with Duration := Hour } 1000 1000).1

/-- The service `oneHour` after its reminder was groomed. -/
def groomed : Reminders (List Reminder × Int) :=
  snapshotGrooming oneHour
    [(Create memRepo (NewReminders ([], 0)) { rentBody with Duration := Hour } 1000 1000).2.1]

/-- An edit body for id 1 that supplies a title and nothing else. -/
def titleBody : ReminderEditBody :=
  { ID := 1, Title := "Pay the rent", Message := "", Duration := 0, RetryPeriod := 0 }

/-- An edit body for id 1 whose title is three spaces and which sets nothing else. -/
def spacesBody : ReminderEditBody :=
  { ID := 1, Title := "   ", Message := "", Duration := 0, RetryPeriod := 0 }

/-! ## Whole-program runs -/

/-- A first run of the server on a directory without files, every file operation succeeding:
`DB.Start`, `Populate`, a `Create`, a background save, a second `Create`, the `Delete` of the
reminder just created, the final save of the saver's `Stop`, and `DB.Stop`. The result is the
two ids issued and the files left behind (`none` if a save panics). -/
def firstRun (L : Library) (t : Time) : Option (Int × Int × Disk) :=
  match DB.Start L NewDB { dbFile := none, cfgFile := none } false false with
  | (db0, d0, _) =>
    let R := fileRepo L .ok .ok
    let s0 : Reminders Store := NewReminders { db := db0, disk := d0 }
    let s1 := (Populate R s0 t).1
    let c1 := Create R s1 rentBody t t
    (save R c1.1).bind fun sv1 =>
      let c2 := Create R sv1.1 rentBody t t
      let s3 := (Delete c2.1 [c2.2.1.ID]).1
      (save R s3).bind fun sv2 =>
        some (c1.2.1.ID, c2.2.1.ID, (DB.Stop sv2.1.repo.db sv2.1.repo.disk .ok .ok).1)

/-- A later run on the files `d`: a new `DB`, `DB.Start`, a new service, `Populate`, and one
`Create`. The result is the id and the error of that `Create`. -/
def secondRun (L : Library) (t : Time) (d : Disk) : Int × Option Error :=
  match DB.Start L NewDB d false false with
  | (db0, d0, _) =>
    let R := fileRepo L .ok .ok
    let s0 : Reminders Store := NewReminders { db := db0, disk := d0 }
    let s1 := (Populate R s0 t).1
    let c := Create R s1 rentBody t t
    (c.2.1.ID, c.2.2)

/-- One call on the service: the method and its arguments, clock readings included. -/
inductive Call where
  | create (body : ReminderCreateBody) (t1 t2 : Time)
  | edit (reminderBody : ReminderEditBody) (t1 t2 : Time)
  | delete (ids : List Int)
  | groom (notifiedReminders : List Reminder)
  | retry (reminder : Reminder) (now : Time)

/-- The service after one call, whether the call succeeds or fails. -/
def applyCall {σ : Type} (R : ReminderRepository σ) (rs : Reminders σ) : Call → Reminders σ
  | .create body t1 t2 => (Create R rs body t1 t2).1
  | .edit reminderBody t1 t2 => (Edit rs reminderBody t1 t2).1
  | .delete ids => (Delete rs ids).1
  | .groom notifiedReminders => snapshotGrooming rs notifiedReminders
  | .retry reminder now => retry rs reminder now

/-- The service after a sequence of calls, starting from `NewReminders`. -/
def runCalls {σ : Type} (R : ReminderRepository σ) (repo : σ) (calls : List Call) : Reminders σ :=
  calls.foldl (applyCall R) (NewReminders repo)

/-! ## Predicates used in the statements -/

/-- Message of the first check of `Create` that a body fails, in source order: title,
message, duration, retry period. -/
def createFault (body : ReminderCreateBody) : String :=
  if body.Title = "" then "title cannot be empty"
  else if body.Message = "" then "message cannot be empty"
  else if body.Duration = 0 then "duration cannot be 0"
  else "retry period cannot be 0"

/-- Every entry of `Uncompleted` is an entry of `All` under the same id. -/
def Snapshot.Consistent (s : Snapshot) : Prop :=
  ∀ k e, s.Uncompleted.lookup k = some e → s.All.lookup k = some e

/-- Every entry of `All` holds a reminder whose id is the key it is stored under. -/
def Snapshot.Keyed (s : Snapshot) : Prop :=
  ∀ k e, s.All.lookup k = some e → e.reminder.ID = k

/-! ## services: the background notifier -/

/-- The struct `NotificationResponse`. -/
structure NotificationResponse where
  completed : Bool
  retryPeriod : DurationNs
deriving DecidableEq, Repr

/-- Course of the HTTP exchange inside `HTTPClient.Notify`: `json.Marshal` of the reminder
fails, the `Post` fails (notifier unreachable, timeout), the body cannot be decoded, or the
body is decoded and carries the given action (the empty string when the body is empty or has
no action field). -/
inductive Exchange where
  | marshalFails
  | postFails
  | decodeFails
  | answered (action : String)
deriving DecidableEq, Repr

/-- The method `HTTPClient.Notify`. -/
def HTTPClientNotify (x : Exchange) : NotificationResponse × Option Error :=
  match x with
  | .marshalFails =>
    ({ completed := false, retryPeriod := 0 },
      some (.Wrapped "could not marshal json" (.Library "json")))
  | .postFails =>
    ({ completed := false, retryPeriod := 0 },
      some (.Wrapped "notifier service is unavailable" (.Library "post")))
  | .decodeFails =>
    ({ completed := false, retryPeriod := 0 },
      some (.Wrapped "could not decode notifier response" (.Library "json")))
  | .answered action =>
    if action = "dismissed" then ({ completed := true, retryPeriod := 0 }, none)
    else ({ completed := false, retryPeriod := 0 }, none)

/-- What a delivery attempt does besides changing the snapshot: the hooks of the service it
calls and the reminders it sends on the `completed` channel, in order. -/
inductive Effect where
  | groomCalled (r : Reminder)
  | completionSent (r : Reminder)
  | retryCalled (r : Reminder)
deriving DecidableEq, Repr

/-- The method `BackgroundNotifier.notify`, for the result `(res, err)` of `n.Client.Notify(r)`;
`now` is the clock reading of `retry`. -/
def notify {σ : Type} (rs : Reminders σ) (r : Reminder) (res : NotificationResponse)
    (err : Option Error) (now : Time) : Reminders σ × List Effect :=
  match err with
  | some _ => (retry rs r now, [.retryCalled r])
  | none =>
    if res.completed then (snapshotGrooming rs [r], [.groomCalled r, .completionSent r])
    else (retry rs r now, [.retryCalled r])

/-- The test of one reminder on a tick of `BackgroundNotifier.Start`; `t1` and `t2` are the
readings of the two `time.Now()` calls (`nowTick`, then `deltaTick`). -/
def dueOnTick (reminder : Reminder) (t1 t2 : Time) : Bool :=
  let reminderTick := Time.UnixNano (Time.Add reminder.ModifiedAt reminder.Duration)
  let nowTick := Time.UnixNano t1
  let deltaTick := Time.UnixNano (Time.Add t2 Second)
  decide (reminderTick > nowTick) && decide (reminderTick < deltaTick)

/-- One tick of `BackgroundNotifier.Start` on a snapshot: the ids of `Uncompleted`, each with
the reminder handed to `go n.notify(reminder)`. `clock id` gives the two clock readings taken
while the loop is at `id`. -/
def tickDispatch (s : Snapshot) (clock : Int → Time × Time) : List (Int × Reminder) :=
  (s.Uncompleted.keys.filter
    (fun id => dueOnTick (flatten s.Uncompleted id).2 (clock id).1 (clock id).2)).map
    (fun id => (id, (flatten s.Uncompleted id).2))

/-! ## A small library for the examples -/

/-- Decimal digits of a natural number, as bytes. -/
def natBytes (n : Nat) : Bytes := (Nat.toDigits 10 n).map (fun c => c.toNat.toUInt8)

/-- Decimal rendering of an integer, as bytes (45 is the minus sign). -/
def intBytes (x : Int) : Bytes := if x < 0 then 45 :: natBytes x.natAbs else natBytes x.natAbs

/-- Inverse of `intBytes`. -/
def bytesInt (b : Bytes) : Int :=
  match b with
  | 45 :: ds => -((ds.foldl (fun a u => a * 10 + (u.toNat - 48)) 0 : Nat) : Int)
  | ds => ((ds.foldl (fun a u => a * 10 + (u.toNat - 48)) 0 : Nat) : Int)

/-- Numbers that stand for a reminder: id, length and characters of the title, length and
characters of the message, duration, retry period and both timestamps. -/
def reminderNumbers (r : Reminder) : List Int :=
  [r.ID, (r.Title.data.length : Int)] ++ r.Title.data.map (fun c => (c.toNat : Int)) ++
    [(r.Message.data.length : Int)] ++ r.Message.data.map (fun c => (c.toNat : Int)) ++
    [r.Duration, r.RetryPeriod, r.CreatedAt, r.ModifiedAt]

/-- Reads back the reminders from their numbers; `fuel` bounds the number of reminders. -/
def numbersReminders : Nat → List Int → Option (List Reminder)
  | _, [] => some []
  | 0, _ :: _ => none
  | fuel + 1, id :: n :: rest =>
    match rest.drop n.toNat with
    | m :: rest2 =>
      match rest2.drop m.toNat with
      | d :: p :: c :: u :: rest3 =>
        (numbersReminders fuel rest3).map (fun rs =>
          { ID := id, Title := String.mk ((rest.take n.toNat).map (fun x => Char.ofNat x.toNat)),
            Message := String.mk ((rest2.take m.toNat).map (fun x => Char.ofNat x.toNat)),
            Duration := d, RetryPeriod := p, CreatedAt := c, ModifiedAt := u } :: rs)
      | _ => none
    | _ => none
  | _ + 1, [_] => none

/-- A stand-in for the library: the digest is the byte string itself written out in decimal,
and a list of reminders is encoded as its numbers in decimal, separated by spaces, between
brackets. White space after the closing bracket is ignored when decoding. -/
def exampleLibrary : Library :=
  { sha256hex := fun b => String.intercalate "," (b.map (fun u => toString u.toNat))
    jsonMarshal := fun rs =>
      some ([91] ++ (List.intercalate [32] ((rs.flatMap reminderNumbers).map intBytes)) ++ [93])
    jsonUnmarshal := fun b =>
      match (b.reverse.dropWhile (fun u => u = 10 || u = 32)).reverse with
      | 91 :: body =>
        if body.getLast? = some 93 then
          numbersReminders body.length
            (((body.dropLast.splitOn 32).filter (fun t => t ≠ [])).map bytesInt)
        else none
      | _ => none }


/-! ## Further states and files used in the examples -/

/-- The loop of `save` over the entries of `All` taken in the order `es`, on a slice of
`n` zero values. -/
def fillSlice (n : Nat) (es : List (Σ _ : Int, Entry)) : Option (List Reminder) :=
  es.foldl
    (fun acc e => acc.bind (fun reminders => sliceSet reminders e.2.index e.2.reminder))
    (some (List.replicate n Reminder.zero))

/-- The service after two creates and the `Delete` of the first reminder. -/
def secondOnly : Reminders (List Reminder × Int) :=
  runCalls memRepo ([], 0)
    [.create rentBody 1000 1000, .create rentBody 2000 2000, .delete [1]]

/-- The service after three creates, the `Delete` of the first reminder and a fourth create. -/
def afterGap : Reminders (List Reminder × Int) :=
  runCalls memRepo ([], 0)
    [.create rentBody 1000 1000, .create rentBody 2000 2000, .create rentBody 3000 3000,
      .delete [1], .create rentBody 4000 4000]

/-- A store started on a directory without files. -/
def freshStore (L : Library) : Store :=
  { db := (DB.Start L NewDB { dbFile := none, cfgFile := none } false false).1,
    disk := (DB.Start L NewDB { dbFile := none, cfgFile := none } false false).2.1 }

/-- The files after a `Write(p)` that was cut short between its two file writes: the config
file holds the counter `id` and the checksum of `p` plus terminator, the database file still
holds `old`. -/
def interruptedDisk (L : Library) (old : Bytes) (id : Int) (p : Bytes) : Disk :=
  { dbFile := some old,
    cfgFile := some (.json { ID := id, Checksum := genChecksum L (p ++ [10]) }) }

/-- A second reminder with the id of `rent` and another title. -/
def rentTwin : Reminder := { rent with Title := "Pay rent again" }

/-- Two reminders with the ids 1 and 2. -/
def twoDistinct : List Reminder := [rent, { rentTwin with ID := 2 }]

/-! ## controllers: the router `RegexMux` -/

/-- The struct `urlParam`. -/
structure urlParam where
  name : String
  regex : String
  value : String
  position : Int
deriving DecidableEq, Repr

/-- The struct `route`, over the type `H` of the handlers; `params` is its
`map[string]urlParam`. -/
structure route (H : Type) where
  method : String
  path : String
  params : AList (fun _ : String => urlParam)
  handler : H

/-- The struct `RegexMux`. Its field `routesMap` is left out: `ServeHTTP` has a value
receiver and assigns a new map to the field of its copy on every call. -/
structure RegexMux (H : Type) where
  routes : List (route H)

/-- The parts of an `*http.Request` the router reads: `Method` and `URL.Path`. -/
structure Request where
  Method : String
  Path : String
deriving DecidableEq, Repr

/-- The function `regexp.MustCompile` followed by `MatchString`: `none` when the expression
does not compile (`MustCompile` panics), else the matching predicate. A parameter, like the
other library functions. -/
abbrev Regexp := String → Option (String → Bool)

/-- A run-time panic of the router. -/
inductive Panic where
  | nilDereference
  | indexOutOfRange
  | badRegex
deriving DecidableEq, Repr

/-- The function `splitUrl`: the parts of the trimmed url between slashes that are not blank. -/
def splitUrl (url : String) : List String :=
  (((TrimSpace url).data.splitOn '/').map String.mk).filter (fun part => TrimSpace part != "")

/-- One iteration of the loop of `populate` over `r.params`, on the state made of the
params map, `pathSlice` and the panic met so far. -/
def populateParam (rx : Regexp) (urlSlice : List String)
    (st : AList (fun _ : String => urlParam) × List String × Option Panic)
    (entry : Σ _ : String, urlParam) :
    AList (fun _ : String => urlParam) × List String × Option Panic :=
  match st with
  | (params, pathSlice, some p) => (params, pathSlice, some p)
  | (params, pathSlice, none) =>
    if 0 ≤ entry.2.position ∧ entry.2.position < urlSlice.length then
      let regexParamValue := urlSlice.getD entry.2.position.toNat ""
      match rx entry.2.regex with
      | none => (params, pathSlice, some .badRegex)
      | some matchString =>
        if matchString regexParamValue then
          (params.insert entry.1 { entry.2 with value := regexParamValue },
            pathSlice.set entry.2.position.toNat regexParamValue, none)
        else (params, pathSlice, none)
    else (params, pathSlice, some .indexOutOfRange)

/-- The method `route.populate`: the route as the call leaves it, the returned key, and the
panic if one occurs. The params are visited in the order the map holds them. -/
def populate {H : Type} (rx : Regexp) (r : route H) (req : Request) :
    route H × String × Option Panic :=
  let urlSlice := splitUrl req.Path
  let pathSlice := splitUrl r.path
  if pathSlice.length ≠ urlSlice.length then (r, "", none)
  else
    match r.params.entries.foldl (populateParam rx urlSlice) (r.params, pathSlice, none) with
    | (params, _, some p) => ({ r with params := params }, "", some p)
    | (params, pathSlice, none) =>
      let pathStr := "/" ++ String.intercalate "/" pathSlice
      if req.Path = pathStr then ({ r with params := params }, r.method ++ pathStr, none)
      else ({ r with params := params }, "", none)

/-- One iteration of the loop of `ServeHTTP` over `m.routes`, on the state made of the routes
visited so far (as `populate` leaves them), the map `routesMap` and the panic met so far;
after a panic the remaining routes are not visited. -/
def populateRoute {H : Type} (rx : Regexp) (req : Request)
    (st : List (route H) × AList (fun _ : String => route H) × Option Panic) (rt : route H) :
    List (route H) × AList (fun _ : String => route H) × Option Panic :=
  match st with
  | (visited, routesMap, some p) => (visited ++ [rt], routesMap, some p)
  | (visited, routesMap, none) =>
    match populate rx rt req with
    | (rt1, _, some p) => (visited ++ [rt1], routesMap, some p)
    | (rt1, key, none) => (visited ++ [rt1], routesMap.insert key rt1, none)

/-- What `ServeHTTP` ends with: the call `rt.handler.ServeHTTP`, with the params put into the
request context when the route has any, or a panic. -/
inductive Served (H : Type) where
  | handled (handler : H) (params : Option (AList (fun _ : String => urlParam)))
  | panicked (p : Panic)

/-- The panic `ServeHTTP` ends with, if it does. -/
def Served.panic {H : Type} : Served H → Option Panic
  | .handled _ _ => none
  | .panicked p => some p

/-- The handler `ServeHTTP` ends up calling, if it does. -/
def Served.handler {H : Type} : Served H → Option H
  | .handled h _ => some h
  | .panicked _ => none

/-- The method `RegexMux.ServeHTTP`: the mux afterwards, the errors passed to
`transport.SendError`, and how the call ends. When the key is not in `routesMap` the error
is sent and execution goes on with `rt == nil`; `len(rt.params)` then dereferences it. -/
def ServeHTTP {H : Type} (rx : Regexp) (m : RegexMux H) (r : Request) :
    RegexMux H × List Error × Served H :=
  match m.routes.foldl (populateRoute rx r) ([], ∅, none) with
  | (routes, _, some p) => ({ routes := routes }, [], .panicked p)
  | (routes, routesMap, none) =>
    let key := r.Method ++ r.Path
    match routesMap.lookup key with
    | none => ({ routes := routes }, [.NotFoundError ""], .panicked .nilDereference)
    | some rt =>
      ({ routes := routes }, [],
        .handled rt.handler (if rt.params.entries.length ≠ 0 then some rt.params else none))

/-! ## The router of the server -/

/-- The handlers `NewRouter` registers. -/
inductive Handler where
  | fetchReminders
  | createReminder
  | editReminder
  | deleteReminders
  | health
deriving DecidableEq, Repr

/-- The params `Handle` computes for the pattern `/reminders/` followed by `idsParam`: the
param `ids` with its expression, at position 1. -/
def idsParams : AList (fun _ : String => urlParam) :=
  AList.singleton "ids"
    { name := "ids", regex := "[0-9]+(,[0-9]+)*", value := "", position := 1 }

/-- The params `Handle` computes for the pattern `/reminders/` followed by `idParam`. -/
def idParams : AList (fun _ : String => urlParam) :=
  AList.singleton "id" { name := "id", regex := "^[0-9]+$", value := "", position := 1 }

/-- The mux `NewRouter` builds: its five routes, in registration order. -/
def serverMux : RegexMux Handler :=
  { routes :=
      [{ method := "GET", path := "/reminders/{ids}:[0-9]+(,[0-9]+)*", params := idsParams,
         handler := .fetchReminders },
       { method := "POST", path := "/reminders", params := ∅, handler := .createReminder },
       { method := "PATCH", path := "/reminders/{id}:^[0-9]+$", params := idParams,
         handler := .editReminder },
       { method := "DELETE", path := "/reminders/{ids}:[0-9]+(,[0-9]+)*", params := idsParams,
         handler := .deleteReminders },
       { method := "GET", path := "/health", params := ∅, handler := .health }] }

/-- The two expressions of the server's routes, as `regexp` matches them: `^[0-9]+$` holds of
the non-empty strings of digits, the unanchored `[0-9]+(,[0-9]+)*` of the strings that
contain a digit. No other expression is known to this stand-in. -/
def serverRegexp : Regexp := fun regex =>
  if regex = "^[0-9]+$" then some (fun s => s.data != [] && s.data.all Char.isDigit)
  else if regex = "[0-9]+(,[0-9]+)*" then some (fun s => s.data.any Char.isDigit)
  else none

/-- The service `oneRent` after the `Delete` of its reminder. -/
def afterDelete : Reminders (List Reminder × Int) := (Delete oneRent [1]).1

/-! ## Lemmas on the embedding -/

theorem wrapInt64_eq (x : Int) (h1 : -2 ^ 63 ≤ x) (h2 : x < 2 ^ 63) : wrapInt64 x = x := by
  unfold wrapInt64
  have : (x + 2 ^ 63) % 2 ^ 64 = x + 2 ^ 63 := Int.emod_eq_of_lt (by omega) (by omega)
  omega

theorem mem_notFoundIDs (all : RemindersMap) (ids : List Int) (k : Int) :
    k ∈ notFoundIDs all ids ↔ k ∈ ids ∧ all.lookup k = none := by
  simp [notFoundIDs]

theorem lookup_deleteAll_All (ids : List Int) (s : Snapshot) (k : Int) :
    (deleteAll s ids).All.lookup k = if k ∈ ids then none else s.All.lookup k := by
  induction ids generalizing s with
  | nil => simp [deleteAll]
  | cons id rest ih =>
    have hstep : deleteAll s (id :: rest)
        = deleteAll { All := s.All.erase id, Uncompleted := s.Uncompleted.erase id } rest := rfl
    rw [hstep, ih]
    by_cases hk : k = id
    · subst hk
      simp
    · by_cases hr : k ∈ rest
      · simp [hr]
      · simp [hr, hk, AList.lookup_erase_ne hk]

theorem lookup_deleteAll_Uncompleted (ids : List Int) (s : Snapshot) (k : Int) :
    (deleteAll s ids).Uncompleted.lookup k
      = if k ∈ ids then none else s.Uncompleted.lookup k := by
  induction ids generalizing s with
  | nil => simp [deleteAll]
  | cons id rest ih =>
    have hstep : deleteAll s (id :: rest)
        = deleteAll { All := s.All.erase id, Uncompleted := s.Uncompleted.erase id } rest := rfl
    rw [hstep, ih]
    by_cases hk : k = id
    · subst hk
      simp
    · by_cases hr : k ∈ rest
      · simp [hr]
      · simp [hr, hk, AList.lookup_erase_ne hk]

theorem applyEdit_ID (r : Reminder) (b : ReminderEditBody) : (applyEdit r b).1.ID = r.ID := by
  simp only [applyEdit]
  split_ifs <;> rfl

theorem applyEdit_Duration (r : Reminder) (b : ReminderEditBody) (h : b.Duration ≠ 0) :
    (applyEdit r b).1.Duration = b.Duration := by
  simp only [applyEdit, bne_iff_ne, ne_eq, h, not_false_eq_true, if_true]
  split_ifs <;> rfl

theorem applyEdit_fields (r : Reminder) (b : ReminderEditBody) :
    (applyEdit r b).1 =
      { ID := r.ID,
        Title := if TrimSpace b.Title ≠ "" then b.Title else r.Title,
        Message := if TrimSpace b.Message ≠ "" then b.Message else r.Message,
        Duration := if b.Duration ≠ 0 then b.Duration else r.Duration,
        RetryPeriod := if b.RetryPeriod ≠ 0 then b.RetryPeriod else r.RetryPeriod,
        CreatedAt := r.CreatedAt,
        ModifiedAt := r.ModifiedAt } := by
  simp only [applyEdit, bne_iff_ne]
  by_cases h1 : TrimSpace b.Title = "" <;>
  by_cases h2 : TrimSpace b.Message = "" <;>
  by_cases h3 : b.Duration = 0 <;>
  by_cases h4 : b.RetryPeriod = 0 <;> simp [h1, h2, h3, h4]

/-- The result of `Edit` on a stored id once at least one field counts as supplied. -/
theorem Edit_of_changed {σ : Type} (rs : Reminders σ) (reminderBody : ReminderEditBody)
    (t1 t2 : Time) (e : Entry) (hl : rs.Snapshot.All.lookup reminderBody.ID = some e)
    (hc : (applyEdit e.reminder reminderBody).2 = true) :
    Edit rs reminderBody t1 t2 =
      ({ rs with Snapshot :=
          { All := rs.Snapshot.All.insert e.reminder.ID
              ⟨e.index, { (applyEdit e.reminder reminderBody).1 with ModifiedAt := t1 }⟩,
            Uncompleted :=
              if Time.UnixNano t1 < Time.UnixNano (Time.Add t2 reminderBody.Duration) then
                rs.Snapshot.Uncompleted.insert e.reminder.ID
                  ⟨e.index, { (applyEdit e.reminder reminderBody).1 with ModifiedAt := t1 }⟩
              else rs.Snapshot.Uncompleted.erase e.reminder.ID } },
        { (applyEdit e.reminder reminderBody).1 with ModifiedAt := t1 }, none) := by
  simp [Edit, hl, flatten, hc, applyEdit_ID]

theorem RepoFilter_store (L : Library) (st : Store) (f : Option (Reminder → Bool)) :
    (RepoFilter L st f).1 = { st with db := (DB.Size st.db).1 } := by
  unfold RepoFilter DB.Read
  cases h : L.jsonUnmarshal (List.take (DB.Size st.db).2.toNat (DB.Size st.db).1.db) <;> simp [h]

theorem Size_idem (db : DB) : (DB.Size (DB.Size db).1).1 = (DB.Size db).1 := by
  unfold DB.Size
  by_cases h : db.db.length = 0 <;> simp [h]

/-- With the file repository, `Populate` leaves the caller with its snapshot, its files and
its config untouched; only an empty cached payload is replaced by `Size`. -/
theorem Populate_fileRepo (L : Library) (a b : Fault) (rs : Reminders Store) (t : Time) :
    (Populate (fileRepo L a b) rs t).1
      = { rs with repo := { rs.repo with db := (DB.Size rs.repo.db).1 } } := by
  have h1 := RepoFilter_store L rs.repo none
  have h2 := RepoFilter_store L (RepoFilter L rs.repo none).1 (some (dueAfter t))
  simp only [Populate, PopulateLocal, fileRepo]
  rcases hf : RepoFilter L rs.repo none with ⟨r1, m1, e1⟩
  rw [hf] at h1 h2
  simp only at h1 h2
  rcases hg : RepoFilter L r1 (some (dueAfter t)) with ⟨r2, m2, e2⟩
  rw [hg] at h2
  simp only at h2
  subst h1
  simp only [Size_idem] at h2
  subst h2
  cases e1 <;> cases e2 <;> simp [hg]

theorem erase_insert_singleton (e1 e2 : Entry) :
    AList.erase (2 : Int) (AList.insert 2 e2 (AList.singleton (1 : Int) e1 : RemindersMap))
      = AList.singleton 1 e1 := by
  apply AList.ext
  rfl

theorem consistent_insert (s : Snapshot) (h : s.Consistent) (id : Int) (e : Entry) :
    Snapshot.Consistent { All := s.All.insert id e, Uncompleted := s.Uncompleted.insert id e } := by
  intro k e' hk
  by_cases hid : k = id
  · subst hid
    simpa using hk
  · simp only [AList.lookup_insert_ne hid] at hk ⊢
    exact h k e' hk

theorem consistent_insert_erase (s : Snapshot) (h : s.Consistent) (id : Int) (e : Entry) :
    Snapshot.Consistent { All := s.All.insert id e, Uncompleted := s.Uncompleted.erase id } := by
  intro k e' hk
  by_cases hid : k = id
  · subst hid
    simp at hk
  · simp only [AList.lookup_insert_ne hid, AList.lookup_erase_ne hid] at hk ⊢
    exact h k e' hk

theorem consistent_erase (s : Snapshot) (h : s.Consistent) (id : Int) :
    Snapshot.Consistent { All := s.All.erase id, Uncompleted := s.Uncompleted.erase id } := by
  intro k e' hk
  by_cases hid : k = id
  · subst hid
    simp at hk
  · simp only [AList.lookup_erase_ne hid] at hk ⊢
    exact h k e' hk

theorem consistent_deleteAll (ids : List Int) (s : Snapshot) (h : s.Consistent) :
    (deleteAll s ids).Consistent := by
  induction ids generalizing s with
  | nil => exact h
  | cons id rest ih => exact ih _ (consistent_erase s h id)

theorem consistent_groom (rems : List Reminder) (s : Snapshot) (h : s.Consistent) :
    (rems.foldl groomOne s).Consistent := by
  induction rems generalizing s with
  | nil => exact h
  | cons r rest ih => exact ih _ (consistent_insert_erase s h _ _)

/-- Each call, succeeding or failing, keeps `Uncompleted` inside `All`. -/
theorem consistent_applyCall {σ : Type} (R : ReminderRepository σ) (rs : Reminders σ)
    (h : rs.Snapshot.Consistent) (c : Call) : (applyCall R rs c).Snapshot.Consistent := by
  cases c with
  | create body t1 t2 =>
    simp only [applyCall, Create]
    split_ifs
    · exact h
    · exact h
    · exact h
    · exact h
    · exact consistent_insert _ h _ _
  | edit reminderBody t1 t2 =>
    simp only [applyCall, Edit]
    cases hl : rs.Snapshot.All.lookup reminderBody.ID with
    | none => exact h
    | some e =>
      simp only
      split_ifs
      · exact h
      · exact consistent_insert _ h _ _
      · exact consistent_insert_erase _ h _ _
  | delete ids =>
    simp only [applyCall, Delete]
    split_ifs
    · exact h
    · exact consistent_deleteAll ids _ h
  | groom notifiedReminders => exact consistent_groom notifiedReminders _ h
  | retry reminder now => exact consistent_insert _ h _ _

theorem keyed_insert (s : Snapshot) (h : s.Keyed) (id : Int) (e : Entry)
    (he : e.reminder.ID = id) (u : RemindersMap) :
    Snapshot.Keyed { All := s.All.insert id e, Uncompleted := u } := by
  intro k e' hk
  by_cases hid : k = id
  · subst hid
    simp only [AList.lookup_insert, Option.some.injEq] at hk
    rw [← hk, he]
  · simp only [AList.lookup_insert_ne hid] at hk
    exact h k e' hk

theorem keyed_erase (s : Snapshot) (h : s.Keyed) (id : Int) (u : RemindersMap) :
    Snapshot.Keyed { All := s.All.erase id, Uncompleted := u } := by
  intro k e' hk
  by_cases hid : k = id
  · subst hid
    simp at hk
  · simp only [AList.lookup_erase_ne hid] at hk
    exact h k e' hk

theorem keyed_deleteAll (ids : List Int) (s : Snapshot) (h : s.Keyed) :
    (deleteAll s ids).Keyed := by
  induction ids generalizing s with
  | nil => exact h
  | cons id rest ih => exact ih _ (keyed_erase s h id _)

theorem keyed_groom (rems : List Reminder) (s : Snapshot) (h : s.Keyed) :
    (rems.foldl groomOne s).Keyed := by
  induction rems generalizing s with
  | nil => exact h
  | cons r rest ih =>
    exact ih _ (keyed_insert s h _ _ (by rfl) _)

/-- Each call, succeeding or failing, keeps every reminder of `All` under its own id. -/
theorem keyed_applyCall {σ : Type} (R : ReminderRepository σ) (rs : Reminders σ)
    (h : rs.Snapshot.Keyed) (c : Call) : (applyCall R rs c).Snapshot.Keyed := by
  cases c with
  | create body t1 t2 =>
    simp only [applyCall, Create]
    split_ifs
    · exact h
    · exact h
    · exact h
    · exact h
    · exact keyed_insert _ h _ _ (by rfl) _
  | edit reminderBody t1 t2 =>
    simp only [applyCall, Edit]
    cases hl : rs.Snapshot.All.lookup reminderBody.ID with
    | none => exact h
    | some e =>
      simp only
      split_ifs
      · exact h
      · exact keyed_insert _ h _ _ (by rfl) _
      · exact keyed_insert _ h _ _ (by rfl) _
  | delete ids =>
    simp only [applyCall, Delete]
    split_ifs
    · exact h
    · exact keyed_deleteAll ids _ h
  | groom notifiedReminders => exact keyed_groom notifiedReminders _ h
  | retry reminder now =>
    exact keyed_insert _ h _ _ (by rfl) _

/-- In every state reached from the new service, each reminder of `All` is stored under its
own id. -/
theorem keyed_runCalls {σ : Type} (R : ReminderRepository σ) (repo : σ) (calls : List Call) :
    (runCalls R repo calls).Snapshot.Keyed := by
  have key : ∀ (cs : List Call) (rs : Reminders σ), rs.Snapshot.Keyed →
      (cs.foldl (applyCall R) rs).Snapshot.Keyed := by
    intro cs
    induction cs with
    | nil => intro rs h; exact h
    | cons c rest ih => intro rs h; exact ih _ (keyed_applyCall R rs h c)
  refine key calls _ ?_
  intro k e hk
  simp [NewReminders] at hk

theorem consistent_foldl {σ : Type} (R : ReminderRepository σ) (calls : List Call)
    (rs : Reminders σ) (h : rs.Snapshot.Consistent) :
    (calls.foldl (applyCall R) rs).Snapshot.Consistent := by
  induction calls generalizing rs with
  | nil => exact h
  | cons c rest ih => exact ih _ (consistent_applyCall R rs h c)

/-! ## Populate -/

/-- C1 (fails on the code). `Populate` has a value receiver, so the service a caller holds
through a pointer keeps the snapshot it had, whatever the repository returns. On a repository
that stores the reminder `rent` under id 1, `Populate` on the new service returns nil and
`Filter(nil)` holds id 1, yet `All` of the service has no id 1 and `Fetch` of id 1 fails with
a not-found error. -/
theorem populate_leaves_service_unpopulated :
    (∀ (σ : Type) (R : ReminderRepository σ) (rs : Reminders σ) (now : Time),
      (Populate R rs now).1.Snapshot = rs.Snapshot) ∧
    (Populate memRepo (NewReminders ([rent], 1)) 0).2 = none ∧
    (memRepo.Filter ([rent], 1) none).2.2 = none ∧
    (memRepo.Filter ([rent], 1) none).2.1.lookup 1 = some ⟨0, rent⟩ ∧
    (PopulateLocal memRepo (NewReminders ([rent], 1)) 0).1.Snapshot.All.lookup 1
      = some ⟨0, rent⟩ ∧
    (Populate memRepo (NewReminders ([rent], 1)) 0).1.Snapshot.All.lookup 1 = none ∧
    Fetch (Populate memRepo (NewReminders ([rent], 1)) 0).1 [1]
      = ([], some (.NotFoundError "could not find reminders with ids: [1]")) := by
  refine ⟨fun _ _ _ _ => rfl, ?_, ?_, ?_, ?_, ?_, ?_⟩ <;> decide

/-! ## Id allocation across a restart -/

/-- C2 (fails on the code). For every digest and JSON library: the first run issues ids 1
and 2 and shuts down through the saver's final save and `DB.Stop`; the `Create` of the next
run succeeds and returns an id that is at most 2, so it is not greater than the ids issued
before the restart. The second save finds the payload of the first one again and is skipped,
and `DB.Stop` writes nothing because both files exist, so the counter value 2 never reaches
the config file. -/
theorem id_reissued_after_restart (L : Library) (t : Time) :
    ∃ d, firstRun L t = some (1, 2, d) ∧ (secondRun L t d).2 = none ∧
      (secondRun L t d).1 ≤ 2 := by
  simp only [firstRun, secondRun, Populate_fileRepo]
  have hs : Second ≠ 0 := by decide
  obtain ⟨o, hm⟩ : ∃ o, L.jsonMarshal
      [(⟨1, "Pay rent", "due today", 2 * Second, 5 * Second, t, t⟩ : Reminder)] = o := ⟨_, rfl⟩
  rcases o with _ | bts
  · simp [DB.Start, readCfgFile, readDBFile, NewDB, fileRepo,
      NewReminders, Create, rentBody, save, saveSlice, RepoSave,
      RepoNextID, DB.GenerateID, DB.Write, DB.Size, DB.Stop, Delete, notFoundIDs,
      deleteAll, writeDBCfg, writeDBFile, genChecksum, sliceSet, len, hm, hs,
      erase_insert_singleton]
  · by_cases hc : L.sha256hex [] = L.sha256hex (bts ++ [10])
    · simp [DB.Start, readCfgFile, readDBFile, NewDB, fileRepo,
        NewReminders, Create, rentBody, save, saveSlice, RepoSave,
        RepoNextID, DB.GenerateID, DB.Write, DB.Size, DB.Stop, Delete, notFoundIDs,
        deleteAll, writeDBCfg, writeDBFile, genChecksum, sliceSet, len, hm, hc, hs,
        erase_insert_singleton]
    · simp [DB.Start, readCfgFile, readDBFile, NewDB, fileRepo,
        NewReminders, Create, rentBody, save, saveSlice, RepoSave,
        RepoNextID, DB.GenerateID, DB.Write, DB.Size, DB.Stop, Delete, notFoundIDs,
        deleteAll, writeDBCfg, writeDBFile, genChecksum, sliceSet, len, hm, hc, hs,
        erase_insert_singleton]

/-! ## Create -/

/-- C3 as stated fails: a create body whose duration is negative, all else valid, passes the
validation of `Create`; the call returns no error and the reminder is inserted into `All` and
`Uncompleted`. -/
theorem create_accepts_negative_duration :
    ({ rentBody with Duration := -1 } : ReminderCreateBody).Duration ≤ 0 ∧
    (Create memRepo (NewReminders ([], 0)) { rentBody with Duration := -1 } 100 100).2.2
      = none ∧
    (Create memRepo (NewReminders ([], 0)) { rentBody with Duration := -1 } 100 100).2.1.Duration
      = -1 ∧
    ((Create memRepo (NewReminders ([], 0)) { rentBody with Duration := -1 } 100
      100).1.Snapshot.All.lookup 1).isSome ∧
    ((Create memRepo (NewReminders ([], 0)) { rentBody with Duration := -1 } 100
      100).1.Snapshot.Uncompleted.lookup 1).isSome := by
  decide

/-- C3 (amended). For every create body whose title is empty, or whose message is empty, or
whose duration is zero, or whose retry period is zero: `Create` returns a data validation
error whose message is that of the first failing check (so it names an offending field),
returns the zero reminder, and leaves `All` and `Uncompleted` as they were. Every other body,
a negative duration or retry period included, is accepted. -/
theorem create_rejects_empty_or_zero {σ : Type} (R : ReminderRepository σ) (rs : Reminders σ)
    (body : ReminderCreateBody) (t1 t2 : Time) :
    ((body.Title = "" ∨ body.Message = "" ∨ body.Duration = 0 ∨ body.RetryPeriod = 0) →
      (Create R rs body t1 t2).2.2 = some (.DataValidationError (createFault body)) ∧
      (Create R rs body t1 t2).2.1 = Reminder.zero ∧
      (Create R rs body t1 t2).1.Snapshot = rs.Snapshot) ∧
    (¬ (body.Title = "" ∨ body.Message = "" ∨ body.Duration = 0 ∨ body.RetryPeriod = 0) →
      (Create R rs body t1 t2).2.2 = none) := by
  unfold Create createFault
  by_cases h1 : body.Title = ""
  · simp [h1]
  · by_cases h2 : body.Message = ""
    · simp [h1, h2]
    · by_cases h3 : body.Duration = 0
      · simp [h1, h2, h3]
      · by_cases h4 : body.RetryPeriod = 0
        · simp [h1, h2, h3, h4]
        · simp [h1, h2, h3, h4]

/-- Witness of C3 (amended): on the one-reminder service, a body with a zero retry period is
refused and a body with a negative retry period is accepted. -/
theorem create_rejects_empty_or_zero_witness :
    ((({ rentBody with RetryPeriod := 0 } : ReminderCreateBody).Title = "" ∨
        ({ rentBody with RetryPeriod := 0 } : ReminderCreateBody).Message = "" ∨
        ({ rentBody with RetryPeriod := 0 } : ReminderCreateBody).Duration = 0 ∨
        ({ rentBody with RetryPeriod := 0 } : ReminderCreateBody).RetryPeriod = 0) ∧
      ((Create memRepo oneRent { rentBody with RetryPeriod := 0 } 100 100).2.2
          = some (.DataValidationError (createFault { rentBody with RetryPeriod := 0 })) ∧
        (Create memRepo oneRent { rentBody with RetryPeriod := 0 } 100 100).2.1 = Reminder.zero ∧
        (Create memRepo oneRent { rentBody with RetryPeriod := 0 } 100 100).1.Snapshot
          = oneRent.Snapshot)) ∧
    (¬ (({ rentBody with RetryPeriod := -5 } : ReminderCreateBody).Title = "" ∨
        ({ rentBody with RetryPeriod := -5 } : ReminderCreateBody).Message = "" ∨
        ({ rentBody with RetryPeriod := -5 } : ReminderCreateBody).Duration = 0 ∨
        ({ rentBody with RetryPeriod := -5 } : ReminderCreateBody).RetryPeriod = 0) ∧
      (Create memRepo oneRent { rentBody with RetryPeriod := -5 } 100 100).2.2 = none) :=
  ⟨⟨by decide,
      (create_rejects_empty_or_zero memRepo oneRent { rentBody with RetryPeriod := 0 } 100
        100).1 (by decide)⟩,
    ⟨by decide,
      (create_rejects_empty_or_zero memRepo oneRent { rentBody with RetryPeriod := -5 } 100
        100).2 (by decide)⟩⟩

/-- C4 as stated fails: `created_at` and `modified_at` come from two readings of the clock;
when the clock reads 100 and then 101, the reminder `Create` returns has different
`CreatedAt` and `ModifiedAt`. -/
theorem create_stamps_differ :
    (Create memRepo (NewReminders ([], 0)) rentBody 100 101).2.2 = none ∧
    (Create memRepo (NewReminders ([], 0)) rentBody 100 101).2.1.CreatedAt
      ≠ (Create memRepo (NewReminders ([], 0)) rentBody 100 101).2.1.ModifiedAt := by
  decide

/-- C4 (amended). For every create body that passes validation: `Create` returns no error;
the returned reminder has the id returned by `NextID`, the title, message, duration and retry
period of the body, `created_at` equal to the first clock reading `t1` and `modified_at`
equal to the second reading `t2` (hence equal to each other when the two readings
coincide); `All` and `Uncompleted` both map that id to this reminder, at index `len(All)`;
and the entry of every other id in `All` and in `Uncompleted` is unchanged. -/
theorem create_result {σ : Type} (R : ReminderRepository σ) (rs : Reminders σ)
    (body : ReminderCreateBody) (t1 t2 : Time)
    (h : body.Title ≠ "" ∧ body.Message ≠ "" ∧ body.Duration ≠ 0 ∧ body.RetryPeriod ≠ 0) :
    (Create R rs body t1 t2).2.2 = none ∧
    (Create R rs body t1 t2).2.1 =
      { ID := (R.NextID rs.repo).2, Title := body.Title, Message := body.Message,
        Duration := body.Duration, RetryPeriod := body.RetryPeriod,
        CreatedAt := t1, ModifiedAt := t2 } ∧
    (Create R rs body t1 t2).1.Snapshot.All.lookup (R.NextID rs.repo).2
      = some ⟨len rs.Snapshot.All, (Create R rs body t1 t2).2.1⟩ ∧
    (Create R rs body t1 t2).1.Snapshot.Uncompleted.lookup (R.NextID rs.repo).2
      = some ⟨len rs.Snapshot.All, (Create R rs body t1 t2).2.1⟩ ∧
    (∀ k, k ≠ (R.NextID rs.repo).2 →
      (Create R rs body t1 t2).1.Snapshot.All.lookup k = rs.Snapshot.All.lookup k ∧
      (Create R rs body t1 t2).1.Snapshot.Uncompleted.lookup k
        = rs.Snapshot.Uncompleted.lookup k) ∧
    (t1 = t2 →
      (Create R rs body t1 t2).2.1.CreatedAt = (Create R rs body t1 t2).2.1.ModifiedAt) := by
  obtain ⟨h1, h2, h3, h4⟩ := h
  refine ⟨?_, ?_, ?_, ?_, ?_, ?_⟩
  · simp [Create, h1, h2, h3, h4]
  · simp [Create, h1, h2, h3, h4]
  · simp [Create, h1, h2, h3, h4]
  · simp [Create, h1, h2, h3, h4]
  · intro k hk
    simp [Create, h1, h2, h3, h4, AList.lookup_insert_ne hk]
  · intro h
    simp [Create, h1, h2, h3, h4, h]

/-- Witness of C4 (amended): the body of scenario A on the one-reminder service, the clock
reading 2000 and then 2001. -/
theorem create_result_witness :
    (rentBody.Title ≠ "" ∧ rentBody.Message ≠ "" ∧ rentBody.Duration ≠ 0 ∧
      rentBody.RetryPeriod ≠ 0) ∧
    (Create memRepo oneRent rentBody 2000 2001).2.1 =
      { ID := 2, Title := "Pay rent", Message := "due today", Duration := 2 * Second,
        RetryPeriod := 5 * Second, CreatedAt := 2000, ModifiedAt := 2001 } :=
  ⟨by decide, (create_result memRepo oneRent rentBody 2000 2001 (by decide)).2.1⟩

/-! ## Fetch and Delete -/

/-- C5. For every service and id list. If some id of the list is absent from `All`: `Fetch`
returns an empty slice and a not-found error, `Delete` returns the same not-found error and
the service exactly as it was, and the message is the `%v` rendering of the absent ids of the
list (every id of the list that is not a key of `All`, and nothing else). If every id of the
list is a key of `All`: `Delete` returns no error, afterwards no listed id is a key of `All`
or of `Uncompleted`, and the entry of every id outside the list is unchanged in both maps. -/
theorem fetch_delete_batch {σ : Type} (rs : Reminders σ) (ids : List Int) :
    ((∃ id ∈ ids, rs.Snapshot.All.lookup id = none) →
      Fetch rs ids = ([], some (.NotFoundError
        ("could not find reminders with ids: " ++ fmtInts (notFoundIDs rs.Snapshot.All ids)))) ∧
      Delete rs ids = (rs, some (.NotFoundError
        ("could not find reminders with ids: " ++ fmtInts (notFoundIDs rs.Snapshot.All ids)))) ∧
      (∀ k, k ∈ notFoundIDs rs.Snapshot.All ids ↔ k ∈ ids ∧ rs.Snapshot.All.lookup k = none)) ∧
    ((∀ id ∈ ids, (rs.Snapshot.All.lookup id).isSome) →
      (Delete rs ids).2 = none ∧
      (∀ k ∈ ids, (Delete rs ids).1.Snapshot.All.lookup k = none ∧
        (Delete rs ids).1.Snapshot.Uncompleted.lookup k = none) ∧
      (∀ k, k ∉ ids → (Delete rs ids).1.Snapshot.All.lookup k = rs.Snapshot.All.lookup k ∧
        (Delete rs ids).1.Snapshot.Uncompleted.lookup k
          = rs.Snapshot.Uncompleted.lookup k)) := by
  constructor
  · rintro ⟨id, hid, habs⟩
    have hne : 0 < (notFoundIDs rs.Snapshot.All ids).length :=
      List.length_pos_of_mem ((mem_notFoundIDs _ _ _).2 ⟨hid, habs⟩)
    refine ⟨?_, ?_, fun k => mem_notFoundIDs _ _ k⟩
    · simp [Fetch, hne]
    · simp [Delete, hne]
  · intro hall
    have hnil : notFoundIDs rs.Snapshot.All ids = [] := by
      rw [List.eq_nil_iff_forall_not_mem]
      intro k hk
      have := (mem_notFoundIDs _ _ _).1 hk
      have h2 := hall k this.1
      rw [this.2] at h2
      simp at h2
    refine ⟨?_, ?_, ?_⟩
    · simp [Delete, hnil]
    · intro k hk
      simp [Delete, hnil, lookup_deleteAll_All, lookup_deleteAll_Uncompleted, hk]
    · intro k hk
      simp [Delete, hnil, lookup_deleteAll_All, lookup_deleteAll_Uncompleted, hk]

/-- Witness of C5: on the two-reminder service, the list 1, 7, 2, 9 has the absent ids 7 and
9 and is refused whole; the list 1, 2 is deleted. -/
theorem fetch_delete_batch_witness :
    ((∃ id ∈ [1, 7, 2, 9], twoRents.Snapshot.All.lookup id = none) ∧
      Fetch twoRents [1, 7, 2, 9]
        = ([], some (.NotFoundError ("could not find reminders with ids: "
            ++ fmtInts (notFoundIDs twoRents.Snapshot.All [1, 7, 2, 9])))) ∧
      Delete twoRents [1, 7, 2, 9]
        = (twoRents, some (.NotFoundError ("could not find reminders with ids: "
            ++ fmtInts (notFoundIDs twoRents.Snapshot.All [1, 7, 2, 9])))) ∧
      "could not find reminders with ids: "
          ++ fmtInts (notFoundIDs twoRents.Snapshot.All [1, 7, 2, 9])
        = "could not find reminders with ids: [7 9]") ∧
    ((∀ id ∈ [1, 2], (twoRents.Snapshot.All.lookup id).isSome) ∧
      (Delete twoRents [1, 2]).2 = none) :=
  ⟨⟨⟨7, by decide, by decide⟩,
      ((fetch_delete_batch twoRents [1, 7, 2, 9]).1 ⟨7, by decide, by decide⟩).1,
      ((fetch_delete_batch twoRents [1, 7, 2, 9]).1 ⟨7, by decide, by decide⟩).2.1,
      by decide⟩,
    ⟨by decide, ((fetch_delete_batch twoRents [1, 2]).2 (by decide)).1⟩⟩

/-! ## Edit -/

/-- C6. Whenever `Edit` returns an error, the service (both maps, and so every stored
reminder with all its fields) is exactly as before and the zero reminder is returned. For an
id absent from `All` the error is the not-found error for that id; for an id present in `All`
and a body with empty title, empty message, zero duration and zero retry period it is the
format validation error. -/
theorem edit_error_leaves_snapshot {σ : Type} (rs : Reminders σ)
    (reminderBody : ReminderEditBody) (t1 t2 : Time) :
    ((Edit rs reminderBody t1 t2).2.2 ≠ none →
      (Edit rs reminderBody t1 t2).1 = rs ∧ (Edit rs reminderBody t1 t2).2.1 = Reminder.zero) ∧
    (rs.Snapshot.All.lookup reminderBody.ID = none →
      (Edit rs reminderBody t1 t2).2.2 = some (.NotFoundError
        ("could not find reminder with id: " ++ fmtInt reminderBody.ID))) ∧
    ((rs.Snapshot.All.lookup reminderBody.ID).isSome ∧ reminderBody.Title = "" ∧
        reminderBody.Message = "" ∧ reminderBody.Duration = 0 ∧ reminderBody.RetryPeriod = 0 →
      (Edit rs reminderBody t1 t2).2.2 = some (.FormatValidationError
        "body must contain at least 1 of: 'title', 'message', 'duration', 'retryPeriod'")) := by
  refine ⟨?_, ?_, ?_⟩
  · intro herr
    unfold Edit at herr ⊢
    cases hl : rs.Snapshot.All.lookup reminderBody.ID with
    | none => simp [hl]
    | some e =>
      simp only [hl] at herr ⊢
      by_cases hc : (applyEdit (flatten rs.Snapshot.All reminderBody.ID).2 reminderBody).2 = true
      · simp [hc] at herr
      · simp [hc]
  · intro hl
    simp [Edit, hl]
  · rintro ⟨hl, h1, h2, h3, h4⟩
    obtain ⟨e, he⟩ := Option.isSome_iff_exists.1 hl
    have ht : TrimSpace "" = "" := by decide
    simp [Edit, he, applyEdit, h1, h2, h3, h4, ht]

/-- Witness of C6: on the one-reminder service, an edit of the absent id 5 and an edit of id
1 that supplies nothing both fail and leave the service as it was. -/
theorem edit_error_leaves_snapshot_witness :
    ((Edit oneRent { titleBody with ID := 5 } 2000 2000).2.2 ≠ none ∧
      (Edit oneRent { titleBody with ID := 5 } 2000 2000).1 = oneRent) ∧
    (oneRent.Snapshot.All.lookup ({ titleBody with ID := 5 } : ReminderEditBody).ID = none ∧
      (Edit oneRent { titleBody with ID := 5 } 2000 2000).2.2
        = some (.NotFoundError ("could not find reminder with id: " ++ fmtInt 5))) ∧
    (((oneRent.Snapshot.All.lookup ({ titleBody with Title := "" } : ReminderEditBody).ID).isSome ∧
        ({ titleBody with Title := "" } : ReminderEditBody).Title = "" ∧
        ({ titleBody with Title := "" } : ReminderEditBody).Message = "" ∧
        ({ titleBody with Title := "" } : ReminderEditBody).Duration = 0 ∧
        ({ titleBody with Title := "" } : ReminderEditBody).RetryPeriod = 0) ∧
      (Edit oneRent { titleBody with Title := "" } 2000 2000).2.2
        = some (.FormatValidationError
          "body must contain at least 1 of: 'title', 'message', 'duration', 'retryPeriod'")) :=
  ⟨⟨by decide,
      ((edit_error_leaves_snapshot oneRent { titleBody with ID := 5 } 2000 2000).1
        (by decide)).1⟩,
    ⟨by decide,
      (edit_error_leaves_snapshot oneRent { titleBody with ID := 5 } 2000 2000).2.1
        (by decide)⟩,
    ⟨by decide,
      (edit_error_leaves_snapshot oneRent { titleBody with Title := "" } 2000 2000).2.2
        (by decide)⟩⟩

/-- C7 as stated fails: an edit of the stored id 1 whose title is three spaces (a non-empty
title) and which sets nothing else does not succeed. `Edit` trims the title before testing
it, returns the format validation error, and the stored title stays what it was. -/
theorem edit_blank_title_rejected :
    (oneRent.Snapshot.All.lookup 1).isSome ∧ spacesBody.Title ≠ "" ∧
    (Edit oneRent spacesBody 2000 2000).2.2 = some (.FormatValidationError
      "body must contain at least 1 of: 'title', 'message', 'duration', 'retryPeriod'") ∧
    ((Edit oneRent spacesBody 2000 2000).1.Snapshot.All.lookup 1).map
      (fun e => e.reminder.Title) = some "Pay rent" := by
  decide

/-- C7 (amended). A title or message counts as supplied when it is not empty after
`strings.TrimSpace` (one made only of white space does not), a duration or retry period when
it is not zero. For every id present in `All` and every edit body that supplies at least one
field: `Edit` succeeds; the returned reminder takes each supplied field from the body (title
and message untrimmed), keeps the stored value of every other field, keeps id and
`created_at`, and has `modified_at` equal to the clock reading `t1`; `All` maps the
reminder's id (which is the id of the body in every reachable state, see `keyed_runCalls`) to
the returned reminder at the index it had, and every other entry of `All` is unchanged. -/
theorem edit_partial_update {σ : Type} (rs : Reminders σ) (reminderBody : ReminderEditBody)
    (t1 t2 : Time) (e : Entry) (hl : rs.Snapshot.All.lookup reminderBody.ID = some e)
    (hs : TrimSpace reminderBody.Title ≠ "" ∨ TrimSpace reminderBody.Message ≠ "" ∨
      reminderBody.Duration ≠ 0 ∨ reminderBody.RetryPeriod ≠ 0) :
    (Edit rs reminderBody t1 t2).2.2 = none ∧
    (Edit rs reminderBody t1 t2).2.1 =
      { ID := e.reminder.ID,
        Title := if TrimSpace reminderBody.Title ≠ "" then reminderBody.Title else e.reminder.Title,
        Message :=
          if TrimSpace reminderBody.Message ≠ "" then reminderBody.Message else e.reminder.Message,
        Duration := if reminderBody.Duration ≠ 0 then reminderBody.Duration else e.reminder.Duration,
        RetryPeriod :=
          if reminderBody.RetryPeriod ≠ 0 then reminderBody.RetryPeriod else e.reminder.RetryPeriod,
        CreatedAt := e.reminder.CreatedAt,
        ModifiedAt := t1 } ∧
    (Edit rs reminderBody t1 t2).1.Snapshot.All.lookup e.reminder.ID
      = some ⟨e.index, (Edit rs reminderBody t1 t2).2.1⟩ ∧
    (∀ k, k ≠ e.reminder.ID →
      (Edit rs reminderBody t1 t2).1.Snapshot.All.lookup k = rs.Snapshot.All.lookup k) := by
  have hc : (applyEdit e.reminder reminderBody).2 = true := by
    simp only [applyEdit, Bool.or_eq_true, bne_iff_ne]
    tauto
  rw [Edit_of_changed rs reminderBody t1 t2 e hl hc, applyEdit_fields]
  refine ⟨rfl, rfl, ?_, ?_⟩
  · simp
  · intro k hk
    simp [AList.lookup_insert_ne hk]

/-- Witness of C7 (amended): a title-only edit of id 1 on the one-reminder service. -/
theorem edit_partial_update_witness :
    (oneRent.Snapshot.All.lookup titleBody.ID = some ⟨0, rent⟩ ∧
      (TrimSpace titleBody.Title ≠ "" ∨ TrimSpace titleBody.Message ≠ "" ∨
        titleBody.Duration ≠ 0 ∨ titleBody.RetryPeriod ≠ 0)) ∧
    (Edit oneRent titleBody 2000 2000).2.2 = none :=
  ⟨⟨by decide, by decide⟩,
    (edit_partial_update oneRent titleBody 2000 2000 ⟨0, rent⟩ (by decide) (by decide)).1⟩

/-- C8 (fails on the code). The test of `Edit` adds the duration of the body, not the
resulting duration, to the second clock reading. (1) With both readings 2000, a title-only
edit of a one-hour reminder returns no error and the stored reminder has
`modified_at + duration > now`, yet its id is no longer a key of `Uncompleted`. (2) With
readings 2000 and 2001, a title-only edit of a groomed reminder (duration minus one hour)
puts it back into `Uncompleted` although `modified_at + duration` is not after `now`. -/
theorem edit_title_only_uncompleted :
    ((Edit oneHour titleBody 2000 2000).2.2 = none ∧
      (Edit oneHour titleBody 2000 2000).2.1.Duration = Hour ∧
      (Edit oneHour titleBody 2000 2000).2.1.ModifiedAt
        + (Edit oneHour titleBody 2000 2000).2.1.Duration > 2000 ∧
      (Edit oneHour titleBody 2000 2000).1.Snapshot.Uncompleted.lookup 1 = none ∧
      (Edit oneHour titleBody 2000 2000).1.Snapshot.All.lookup 1
        = some ⟨0, (Edit oneHour titleBody 2000 2000).2.1⟩) ∧
    ((Edit groomed titleBody 2000 2001).2.2 = none ∧
      (Edit groomed titleBody 2000 2001).2.1.Duration = -Hour ∧
      ¬ ((Edit groomed titleBody 2000 2001).2.1.ModifiedAt
        + (Edit groomed titleBody 2000 2001).2.1.Duration > 2001) ∧
      (Edit groomed titleBody 2000 2001).1.Snapshot.Uncompleted.lookup 1
        = some ⟨0, (Edit groomed titleBody 2000 2001).2.1⟩) := by
  decide

/-! ## Snapshot consistency -/

/-- C9 as stated fails: a call re-evaluates only the reminder it writes. After a second
`Create`, one hundred seconds after the first, the first reminder (due two seconds after its
creation) is still a key of `Uncompleted` although its `modified_at + duration` is
before `now`. -/
theorem create_keeps_overdue_uncompleted :
    twoRents.Snapshot.All.lookup 1 = some ⟨0, rent⟩ ∧
    (twoRents.Snapshot.Uncompleted.lookup 1).isSome ∧
    ¬ (rent.ModifiedAt + rent.Duration > 1000 + 100 * Second) := by
  decide

/-- C9 (amended). After each of `Create`, `Edit`, `retry` and `snapshotGrooming`, taken at
the instant `now`, the reminder the call wrote (not every reminder of `All`) is a key of
`Uncompleted` if and only if its `modified_at + duration > now`, and the entries of all other
ids are left as they were in both maps. This holds for a `Create` that passes validation with
a positive duration; for an `Edit` of a stored id that supplies a non-zero duration which is
positive, or negative by at least the time `t2 - now` the clock advances between the two
readings of the call, when `now` and `t2 + duration` fit an int64; for a `retry` of a
reminder with a positive retry period; and for the grooming of a reminder whose `modified_at`
is not after `now`. For `Create` and `Edit`, `now` is the reading stored in `modified_at`. -/
theorem written_reminder_uncompleted_iff_due {σ : Type} (R : ReminderRepository σ)
    (rs : Reminders σ) (now : Time) :
    (∀ (body : ReminderCreateBody) (t1 : Time), body.Title ≠ "" → body.Message ≠ "" →
        0 < body.Duration → body.RetryPeriod ≠ 0 →
      (∀ e, (Create R rs body t1 now).1.Snapshot.All.lookup (R.NextID rs.repo).2 = some e →
        (((Create R rs body t1 now).1.Snapshot.Uncompleted.lookup (R.NextID rs.repo).2).isSome
          ↔ e.reminder.ModifiedAt + e.reminder.Duration > now)) ∧
      (∀ k, k ≠ (R.NextID rs.repo).2 →
        (Create R rs body t1 now).1.Snapshot.All.lookup k = rs.Snapshot.All.lookup k ∧
        (Create R rs body t1 now).1.Snapshot.Uncompleted.lookup k
          = rs.Snapshot.Uncompleted.lookup k)) ∧
    (∀ (reminderBody : ReminderEditBody) (old : Entry) (t2 : Time),
        rs.Snapshot.All.lookup reminderBody.ID = some old → reminderBody.Duration ≠ 0 →
        now ≤ t2 → (0 < reminderBody.Duration ∨ reminderBody.Duration ≤ now - t2) →
        -2 ^ 63 ≤ now → now < 2 ^ 63 → -2 ^ 63 ≤ t2 + reminderBody.Duration →
        t2 + reminderBody.Duration < 2 ^ 63 →
      (∀ e, (Edit rs reminderBody now t2).1.Snapshot.All.lookup old.reminder.ID = some e →
        (((Edit rs reminderBody now t2).1.Snapshot.Uncompleted.lookup old.reminder.ID).isSome
          ↔ e.reminder.ModifiedAt + e.reminder.Duration > now)) ∧
      (∀ k, k ≠ old.reminder.ID →
        (Edit rs reminderBody now t2).1.Snapshot.All.lookup k = rs.Snapshot.All.lookup k ∧
        (Edit rs reminderBody now t2).1.Snapshot.Uncompleted.lookup k
          = rs.Snapshot.Uncompleted.lookup k)) ∧
    (∀ reminder : Reminder, 0 < reminder.RetryPeriod →
      (∀ e, (retry rs reminder now).Snapshot.All.lookup reminder.ID = some e →
        (((retry rs reminder now).Snapshot.Uncompleted.lookup reminder.ID).isSome
          ↔ e.reminder.ModifiedAt + e.reminder.Duration > now)) ∧
      (∀ k, k ≠ reminder.ID →
        (retry rs reminder now).Snapshot.All.lookup k = rs.Snapshot.All.lookup k ∧
        (retry rs reminder now).Snapshot.Uncompleted.lookup k
          = rs.Snapshot.Uncompleted.lookup k)) ∧
    (∀ reminder : Reminder, reminder.ModifiedAt ≤ now →
      (∀ e, (snapshotGrooming rs [reminder]).Snapshot.All.lookup reminder.ID = some e →
        (((snapshotGrooming rs [reminder]).Snapshot.Uncompleted.lookup reminder.ID).isSome
          ↔ e.reminder.ModifiedAt + e.reminder.Duration > now)) ∧
      (∀ k, k ≠ reminder.ID →
        (snapshotGrooming rs [reminder]).Snapshot.All.lookup k = rs.Snapshot.All.lookup k ∧
        (snapshotGrooming rs [reminder]).Snapshot.Uncompleted.lookup k
          = rs.Snapshot.Uncompleted.lookup k)) := by
  refine ⟨?_, ?_, ?_, ?_⟩
  · intro body t1 h1 h2 h3 h4
    have h3' : body.Duration ≠ 0 := ne_of_gt h3
    refine ⟨?_, ?_⟩
    · intro e he
      simp [Create, h1, h2, h3', h4] at he ⊢
      subst he
      simpa using h3
    · intro k hk
      simp [Create, h1, h2, h3', h4, AList.lookup_insert_ne hk]
  · intro reminderBody old t2 hl hd ht hcase hn1 hn2 hd1 hd2
    have hc : (applyEdit old.reminder reminderBody).2 = true := by
      simp [applyEdit, hd]
    rw [Edit_of_changed rs reminderBody now t2 old hl hc]
    refine ⟨?_, ?_⟩
    · intro e he
      simp only [AList.lookup_insert, Option.some.injEq] at he
      subst he
      simp only [Time.UnixNano, Time.Add, wrapInt64_eq now hn1 hn2,
        wrapInt64_eq (t2 + reminderBody.Duration) hd1 hd2, applyEdit_Duration _ _ hd]
      rcases hcase with hpos | hneg
      · have h1 : now < t2 + reminderBody.Duration := by linarith
        have h2 : now + reminderBody.Duration > now := by linarith
        simp [h1, h2]
      · have h1 : ¬ now < t2 + reminderBody.Duration := by
          intro hlt
          linarith
        have h2 : ¬ now + reminderBody.Duration > now := by
          intro hlt
          linarith
        simp [h1, h2]
    · intro k hk
      refine ⟨by simp [AList.lookup_insert_ne hk], ?_⟩
      split_ifs
      · simp [AList.lookup_insert_ne hk]
      · simp [AList.lookup_erase_ne hk]
  · intro reminder hr
    refine ⟨?_, ?_⟩
    · intro e he
      simp [retry] at he ⊢
      subst he
      simpa using hr
    · intro k hk
      simp [retry, AList.lookup_insert_ne hk]
  · intro reminder hm
    refine ⟨?_, ?_⟩
    · intro e he
      simp [snapshotGrooming, groomOne] at he ⊢
      subst he
      simp only [Hour]
      linarith
    · intro k hk
      simp [snapshotGrooming, groomOne, AList.lookup_insert_ne hk, AList.lookup_erase_ne hk]

/-- Witness of C9 (amended), on the one-reminder service at instant 4000: a `Create` of the
body of scenario A, an `Edit` of id 1 that sets a duration of minus one hour (second clock
reading 4050), a `retry` and a grooming of the stored reminder. -/
theorem written_reminder_uncompleted_iff_due_witness :
    ((rentBody.Title ≠ "" ∧ rentBody.Message ≠ "" ∧ 0 < rentBody.Duration ∧
        rentBody.RetryPeriod ≠ 0) ∧
      (((Create memRepo oneRent rentBody 4000 4000).1.Snapshot.Uncompleted.lookup
          (memRepo.NextID oneRent.repo).2).isSome
        ↔ (4000 : Int) + 2 * Second > 4000)) ∧
    ((oneRent.Snapshot.All.lookup 1 = some ⟨0, rent⟩ ∧
        (-Hour : Int) ≠ 0 ∧ (4000 : Int) ≤ 4050 ∧
        ((0 : Int) < -Hour ∨ (-Hour : Int) ≤ 4000 - 4050) ∧
        -2 ^ 63 ≤ (4000 : Int) ∧ (4000 : Int) < 2 ^ 63 ∧
        -2 ^ 63 ≤ (4050 : Int) + -Hour ∧ (4050 : Int) + -Hour < 2 ^ 63) ∧
      (((Edit oneRent { titleBody with Title := "", Duration := -Hour } 4000
          4050).1.Snapshot.Uncompleted.lookup 1).isSome
        ↔ (4000 : Int) + -Hour > 4000)) ∧
    (0 < rent.RetryPeriod ∧
      (((retry oneRent rent 4000).Snapshot.Uncompleted.lookup rent.ID).isSome
        ↔ (4000 : Int) + 5 * Second > 4000)) ∧
    (rent.ModifiedAt ≤ 4000 ∧
      (((snapshotGrooming oneRent [rent]).Snapshot.Uncompleted.lookup rent.ID).isSome
        ↔ (1000 : Int) + -Hour > 4000)) :=
  ⟨⟨by decide,
      ((written_reminder_uncompleted_iff_due memRepo oneRent 4000).1 rentBody 4000
        (by decide) (by decide) (by decide) (by decide)).1
        ⟨1, { rent with ID := 2, CreatedAt := 4000, ModifiedAt := 4000 }⟩ (by decide)⟩,
    ⟨by decide,
      ((written_reminder_uncompleted_iff_due memRepo oneRent 4000).2.1
        { titleBody with Title := "", Duration := -Hour } ⟨0, rent⟩ 4050
        (by decide) (by decide) (by decide) (by decide) (by decide) (by decide) (by decide)
        (by decide)).1
        ⟨0, { rent with Duration := -Hour, ModifiedAt := 4000 }⟩ (by decide)⟩,
    ⟨by decide,
      ((written_reminder_uncompleted_iff_due memRepo oneRent 4000).2.2.1 rent (by decide)).1
        ⟨0, { rent with Duration := 5 * Second, ModifiedAt := 4000 }⟩ (by decide)⟩,
    ⟨by decide,
      ((written_reminder_uncompleted_iff_due memRepo oneRent 4000).2.2.2 rent (by decide)).1
        ⟨0, { rent with Duration := -Hour }⟩ (by decide)⟩⟩

/-! ## Uncompleted is a part of All -/

/-- C10. In every state reached from the new (empty) service by any sequence of `Create`,
`Edit`, `Delete`, `snapshotGrooming` and `retry` calls, succeeding or failing, with any
arguments and any repository: every id that is a key of `Uncompleted` is a key of `All`, and
`All` holds the very same entry for it (same positional index, same reminder). -/
theorem uncompleted_entries_in_all {σ : Type} (R : ReminderRepository σ) (repo : σ)
    (calls : List Call) (k : Int) (e : Entry) :
    (runCalls R repo calls).Snapshot.Uncompleted.lookup k = some e →
    (runCalls R repo calls).Snapshot.All.lookup k = some e := by
  have h0 : (NewReminders repo : Reminders σ).Snapshot.Consistent := by
    intro k e hk
    simp [NewReminders] at hk
  exact consistent_foldl R calls _ h0 k e

/-- Witness of C10: two creates, an edit that shortens the first reminder, a retry of the
second, a grooming of the first and a failing delete; id 2 is still uncompleted. -/
theorem uncompleted_entries_in_all_witness :
    (runCalls memRepo ([], 0)
        [.create rentBody 1000 1000, .create rentBody 1500 1500,
          .edit { titleBody with Duration := Second } 2000 2000,
          .retry { rent with ID := 2 } 3000, .groom [rent], .delete [1, 9]]).Snapshot.Uncompleted.lookup 2
      = some ⟨1, { rent with ID := 2, Duration := 5 * Second, ModifiedAt := 3000 }⟩ ∧
    (runCalls memRepo ([], 0)
        [.create rentBody 1000 1000, .create rentBody 1500 1500,
          .edit { titleBody with Duration := Second } 2000 2000,
          .retry { rent with ID := 2 } 3000, .groom [rent], .delete [1, 9]]).Snapshot.All.lookup 2
      = some ⟨1, { rent with ID := 2, Duration := 5 * Second, ModifiedAt := 3000 }⟩ :=
  ⟨by decide,
    uncompleted_entries_in_all memRepo ([], 0)
      [.create rentBody 1000 1000, .create rentBody 1500 1500,
        .edit { titleBody with Duration := Second } 2000 2000,
        .retry { rent with ID := 2 } 3000, .groom [rent], .delete [1, 9]] 2
      ⟨1, { rent with ID := 2, Duration := 5 * Second, ModifiedAt := 3000 }⟩ (by decide)⟩

/-! ## The slice handed to Save -/

set_option maxRecDepth 100000

theorem saveSlice_eq_fillSlice (all : RemindersMap) :
    saveSlice all = fillSlice all.entries.length all.entries := rfl

/-- A slice write at an index other than zero leaves the first element alone. -/
theorem sliceSet_head (reminders s : List Reminder) (i : Int) (r : Reminder) (hi : i ≠ 0)
    (h : sliceSet reminders i r = some s) : s.head? = reminders.head? := by
  unfold sliceSet at h
  split_ifs at h with hr
  simp only [Option.some.injEq] at h
  subst h
  have hpos : i.toNat ≠ 0 := by
    intro h0
    have := Int.toNat_of_nonneg hr.1
    omega
  cases reminders with
  | nil => simp
  | cons a t =>
    obtain ⟨n, hn⟩ := Nat.exists_eq_succ_of_ne_zero hpos
    rw [hn]
    simp

/-- In whatever order the entries are visited, if no entry has index 0 the first element of
the slice is never written: it stays the zero reminder. -/
theorem fillSlice_head_zero (n : Nat) (es : List (Σ _ : Int, Entry)) (s : List Reminder)
    (hn : 0 < n) (hne : ∀ e ∈ es, e.2.index ≠ 0) (h : fillSlice n es = some s) :
    s.head? = some Reminder.zero := by
  have key : ∀ (es : List (Σ _ : Int, Entry)) (acc s : List Reminder),
      (∀ e ∈ es, e.2.index ≠ 0) → acc.head? = some Reminder.zero →
      es.foldl (fun acc e => acc.bind
        (fun reminders => sliceSet reminders e.2.index e.2.reminder)) (some acc) = some s →
      s.head? = some Reminder.zero := by
    intro es
    induction es with
    | nil =>
      intro acc s _ hacc hs
      simp only [List.foldl_nil, Option.some.injEq] at hs
      rw [← hs]
      exact hacc
    | cons e rest ih =>
      intro acc s hne hacc hs
      simp only [List.foldl_cons, Option.some_bind] at hs
      cases hset : sliceSet acc e.2.index e.2.reminder with
      | none =>
        rw [hset] at hs
        have hnone : ∀ l : List (Σ _ : Int, Entry), l.foldl (fun acc e => acc.bind
            (fun reminders => sliceSet reminders e.2.index e.2.reminder)) none = none := by
          intro l
          induction l with
          | nil => rfl
          | cons a t iht => simpa using iht
        rw [hnone] at hs
        cases hs
      | some acc2 =>
        rw [hset] at hs
        refine ih acc2 s (fun x hx => hne x (List.mem_cons_of_mem _ hx)) ?_ hs
        rw [sliceSet_head acc acc2 _ _ (hne e (List.mem_cons_self _ _)) hset]
        exact hacc
  refine key es (List.replicate n Reminder.zero) s hne ?_ h
  obtain ⟨m, hm⟩ := Nat.exists_eq_succ_of_ne_zero (Nat.pos_iff_ne_zero.1 hn)
  rw [hm]
  rfl

/-- C11 (fails on the code). After three creates, the delete of the first reminder and a
fourth create, `All` holds the reminders 2, 3 and 4 with the indices 1, 2 and 2. The slice
`save` hands to the repository has three elements: a zero-valued reminder at index 0, the
reminder 2, and only one of the reminders 3 and 4. -/
theorem save_slice_has_placeholder :
    afterGap.Snapshot.All.entries.map (fun e => (e.1, e.2.index)) = [(4, 2), (3, 2), (2, 1)] ∧
    saveSlice afterGap.Snapshot.All = some
      [Reminder.zero, { rent with ID := 2, CreatedAt := 2000, ModifiedAt := 2000 },
        { rent with ID := 3, CreatedAt := 3000, ModifiedAt := 3000 }] ∧
    (save memRepo afterGap).map (fun out => (out.1.repo.1, out.2)) = some
      ([Reminder.zero, { rent with ID := 2, CreatedAt := 2000, ModifiedAt := 2000 },
        { rent with ID := 3, CreatedAt := 3000, ModifiedAt := 3000 }], none) ∧
    (afterGap.Snapshot.All.lookup 4).map (fun e => e.reminder)
      = some { rent with ID := 4, CreatedAt := 4000, ModifiedAt := 4000 } := by
  decide

/-- C19 (fails on the code). After two creates and the delete of the first reminder, `All`
has one entry, whose positional index is 1, so the write `reminders[1]` of `save` is outside
the one-element slice: `save` panics. After one more create and delete cycle (`afterGap`) the
ids 3 and 4 share the index 2. -/
theorem save_panics_after_delete :
    secondOnly.Snapshot.All.entries.map (fun e => (e.1, e.2.index)) = [(2, 1)] ∧
    len secondOnly.Snapshot.All = 1 ∧
    saveSlice secondOnly.Snapshot.All = none ∧
    (save memRepo secondOnly).isNone = true ∧
    (afterGap.Snapshot.All.lookup 3).map (fun e => e.index) = some 2 ∧
    (afterGap.Snapshot.All.lookup 4).map (fun e => e.index) = some 2 := by
  decide

/-! ## Save and Filter of the repository -/

/-- The loop of `Filter` with a nil filter function, started at position `n` on the map `m`. -/
theorem buildMap_eq (l : List Reminder) :
    buildMap none l = (l.enumFrom 0).foldl
      (fun rMap p => rMap.insert p.2.ID ⟨(p.1 : Int), p.2⟩) (∅ : RemindersMap) := by
  simp [buildMap, List.enum]

theorem foldl_insert_lookup_of_not_mem (l : List Reminder) (n : Nat) (m : RemindersMap)
    (k : Int) (hk : k ∉ l.map (fun r => r.ID)) :
    ((l.enumFrom n).foldl (fun rMap p => rMap.insert p.2.ID ⟨(p.1 : Int), p.2⟩) m).lookup k
      = m.lookup k := by
  induction l generalizing n m with
  | nil => rfl
  | cons a t ih =>
    simp only [List.map_cons, List.mem_cons, not_or] at hk
    simp only [List.enumFrom_cons, List.foldl_cons]
    rw [ih _ _ hk.2, AList.lookup_insert_ne hk.1]

theorem foldl_insert_lookup_mem (l : List Reminder) (n : Nat) (m : RemindersMap)
    (hnd : (l.map (fun r => r.ID)).Nodup) (r : Reminder) (hr : r ∈ l) :
    ∃ e, ((l.enumFrom n).foldl
      (fun rMap p => rMap.insert p.2.ID ⟨(p.1 : Int), p.2⟩) m).lookup r.ID = some e ∧
      e.reminder = r := by
  induction l generalizing n m with
  | nil => cases hr
  | cons a t ih =>
    simp only [List.map_cons, List.nodup_cons] at hnd
    simp only [List.enumFrom_cons, List.foldl_cons]
    rcases List.mem_cons.1 hr with rfl | ht
    · refine ⟨⟨(n : Int), r⟩, ?_, rfl⟩
      rw [foldl_insert_lookup_of_not_mem t _ _ _ hnd.1]
      simp
    · exact ih _ _ hnd.2 ht

theorem foldl_insert_lookup_some (l : List Reminder) (n : Nat) (m : RemindersMap) (k : Int)
    (e : Entry)
    (h : ((l.enumFrom n).foldl
      (fun rMap p => rMap.insert p.2.ID ⟨(p.1 : Int), p.2⟩) m).lookup k = some e) :
    m.lookup k = some e ∨ (e.reminder ∈ l ∧ e.reminder.ID = k) := by
  induction l generalizing n m with
  | nil => exact Or.inl h
  | cons a t ih =>
    simp only [List.enumFrom_cons, List.foldl_cons] at h
    rcases ih _ _ h with h1 | h2
    · by_cases hk : k = a.ID
      · subst hk
        simp only [AList.lookup_insert, Option.some.injEq] at h1
        subst h1
        exact Or.inr ⟨List.mem_cons_self _ _, rfl⟩
      · rw [AList.lookup_insert_ne hk] at h1
        exact Or.inl h1
    · exact Or.inr ⟨List.mem_cons_of_mem _ h2.1, h2.2⟩

/-- C12 as stated fails: for every library and every store, `Save` of the two reminders
`rent` and `rentTwin`, which share the id 1, followed by `Filter(nil)` cannot return both:
the map has one entry per id. With the example library on a new store the calls succeed and
the map holds `rentTwin` only. -/
theorem save_filter_drops_duplicate_id :
    (∀ (L : Library) (st : Store),
      ¬ ∀ r ∈ [rent, rentTwin], ∃ e,
        (RepoFilter L (RepoSave L .ok .ok st [rent, rentTwin]).1 none).2.1.lookup r.ID = some e ∧
          e.reminder = r) ∧
    (RepoSave exampleLibrary .ok .ok (freshStore exampleLibrary) [rent, rentTwin]).2.2 = none ∧
    (RepoFilter exampleLibrary
      (RepoSave exampleLibrary .ok .ok (freshStore exampleLibrary) [rent, rentTwin]).1
      none).2.2 = none ∧
    (RepoFilter exampleLibrary
      (RepoSave exampleLibrary .ok .ok (freshStore exampleLibrary) [rent, rentTwin]).1
      none).2.1.entries = [⟨1, ⟨1, rentTwin⟩⟩] := by
  refine ⟨?_, by decide, by decide, by decide⟩
  intro L st hall
  obtain ⟨e1, h1, he1⟩ := hall rent (by simp)
  obtain ⟨e2, h2, he2⟩ := hall rentTwin (by simp)
  have hid : rentTwin.ID = rent.ID := rfl
  rw [hid, h1] at h2
  have : e1 = e2 := by simpa using h2
  subst this
  rw [he1] at he2
  exact absurd he2 (by decide)

/-- C12 (amended). For every list of reminders with pairwise distinct ids (empty or not) that
the JSON library can encode and decodes back from the encoding followed by the terminator,
on every store whose checksum test skips this payload only when the cached payload is this
payload already: with both file writes succeeding, `Save` returns no error, `Filter(nil)`
after it returns no error, every reminder of the list is in the returned map under its id,
field for field, and every entry of the map is a reminder of the list under its id. -/
theorem save_filter_roundtrip (L : Library) (st : Store) (reminders : List Reminder)
    (bts : Bytes) (hm : L.jsonMarshal reminders = some bts)
    (hu : L.jsonUnmarshal (bts ++ [10]) = some reminders)
    (hnd : (reminders.map (fun r => r.ID)).Nodup)
    (hskip : st.db.cfg.Checksum = genChecksum L (bts ++ [10]) → st.db.db = bts ++ [10]) :
    (RepoSave L .ok .ok st reminders).2.2 = none ∧
    (RepoFilter L (RepoSave L .ok .ok st reminders).1 none).2.2 = none ∧
    (∀ r ∈ reminders, ∃ e,
      (RepoFilter L (RepoSave L .ok .ok st reminders).1 none).2.1.lookup r.ID = some e ∧
        e.reminder = r) ∧
    (∀ k e, (RepoFilter L (RepoSave L .ok .ok st reminders).1 none).2.1.lookup k = some e →
      e.reminder ∈ reminders ∧ e.reminder.ID = k) := by
  have hdb : (RepoSave L .ok .ok st reminders).2.2 = none ∧
      (RepoSave L .ok .ok st reminders).1.db.db = bts ++ [10] := by
    by_cases hc : st.db.cfg.Checksum = genChecksum L (bts ++ [10])
    · simp [RepoSave, hm, DB.Write, hc, hskip hc]
    · simp [RepoSave, hm, DB.Write, hc, writeDBCfg, writeDBFile]
  obtain ⟨hs, hcache⟩ := hdb
  have hf : RepoFilter L (RepoSave L .ok .ok st reminders).1 none
      = ((RepoSave L .ok .ok st reminders).1, buildMap none reminders, none) := by
    have ht : List.take (bts.length + 1) (bts ++ [10]) = bts ++ [10] :=
      List.take_of_length_le (by simp)
    simp [RepoFilter, DB.Size, DB.Read, hcache, hu, ht]
  rw [hf, buildMap_eq]
  refine ⟨hs, rfl, ?_, ?_⟩
  · intro r hr
    exact foldl_insert_lookup_mem reminders 0 ∅ hnd r hr
  · intro k e he
    rcases foldl_insert_lookup_some reminders 0 ∅ k e he with h1 | h2
    · simp at h1
    · exact h2

/-- Witness of C12 (amended): the two reminders of `twoDistinct` on a new store. -/
theorem save_filter_roundtrip_witness :
    (exampleLibrary.jsonMarshal twoDistinct
        = some ((exampleLibrary.jsonMarshal twoDistinct).getD []) ∧
      exampleLibrary.jsonUnmarshal ((exampleLibrary.jsonMarshal twoDistinct).getD [] ++ [10])
        = some twoDistinct ∧
      (twoDistinct.map (fun r => r.ID)).Nodup ∧
      ((freshStore exampleLibrary).db.cfg.Checksum
          = genChecksum exampleLibrary ((exampleLibrary.jsonMarshal twoDistinct).getD [] ++ [10]) →
        (freshStore exampleLibrary).db.db
          = (exampleLibrary.jsonMarshal twoDistinct).getD [] ++ [10])) ∧
    ∃ e, (RepoFilter exampleLibrary
        (RepoSave exampleLibrary .ok .ok (freshStore exampleLibrary) twoDistinct).1
        none).2.1.lookup 2 = some e ∧ e.reminder = { rentTwin with ID := 2 } :=
  ⟨⟨by decide, by decide, by decide, by decide⟩,
    (save_filter_roundtrip exampleLibrary (freshStore exampleLibrary) twoDistinct
      ((exampleLibrary.jsonMarshal twoDistinct).getD [])
      (by decide) (by decide) (by decide) (by decide)).2.2.1 { rentTwin with ID := 2 }
      (by decide)⟩

/-! ## Write and Start of the file database -/

/-- C13. For every store (started or not), payload `p` and outcome of the file operations:
if a first `Write(p)` returns no error, a second `Write(p)` returns `(0, nil)` and leaves the
store (cached payload, checksum, id counter) and both files exactly as the first call left
them, whatever the file system would have answered. When the first call found another
checksum it wrote the data file once, with `p` plus the terminator, and cached it; when it
found the checksum of `p` it was itself a no-op. -/
theorem second_write_is_noop (L : Library) (db : DB) (d : Disk) (p : Bytes)
    (f1 f2 g1 g2 : Fault) (h : (DB.Write L db d p f1 f2).2.2.2 = none) :
    DB.Write L (DB.Write L db d p f1 f2).1 (DB.Write L db d p f1 f2).2.1 p g1 g2
      = ((DB.Write L db d p f1 f2).1, (DB.Write L db d p f1 f2).2.1, 0, none) ∧
    (DB.Write L db d p f1 f2).1.cfg.ID = db.cfg.ID ∧
    (db.cfg.Checksum ≠ genChecksum L (p ++ [10]) →
      (DB.Write L db d p f1 f2).2.1.dbFile = some (p ++ [10]) ∧
      (DB.Write L db d p f1 f2).1.db = p ++ [10] ∧
      (DB.Write L db d p f1 f2).2.2.1 = ((p ++ [10]).length : Int)) ∧
    (db.cfg.Checksum = genChecksum L (p ++ [10]) →
      DB.Write L db d p f1 f2 = (db, d, 0, none)) := by
  by_cases hc : db.cfg.Checksum = genChecksum L (p ++ [10])
  · simp [DB.Write, hc]
  · cases f1 <;> cases f2 <;> simp [DB.Write, hc, writeDBCfg, writeDBFile] at h ⊢

/-- Witness of C13: two writes of the same three bytes on a store started without files. -/
theorem second_write_is_noop_witness :
    (DB.Write exampleLibrary (freshStore exampleLibrary).db (freshStore exampleLibrary).disk
      [91, 49, 93] .ok .ok).2.2.2 = none ∧
    DB.Write exampleLibrary
        (DB.Write exampleLibrary (freshStore exampleLibrary).db
          (freshStore exampleLibrary).disk [91, 49, 93] .ok .ok).1
        (DB.Write exampleLibrary (freshStore exampleLibrary).db
          (freshStore exampleLibrary).disk [91, 49, 93] .ok .ok).2.1 [91, 49, 93] .ok .ok
      = ((DB.Write exampleLibrary (freshStore exampleLibrary).db
          (freshStore exampleLibrary).disk [91, 49, 93] .ok .ok).1,
        (DB.Write exampleLibrary (freshStore exampleLibrary).db
          (freshStore exampleLibrary).disk [91, 49, 93] .ok .ok).2.1, 0, none) :=
  ⟨by decide,
    (second_write_is_noop exampleLibrary (freshStore exampleLibrary).db
      (freshStore exampleLibrary).disk [91, 49, 93] .ok .ok .ok .ok (by decide)).1⟩

/-- The files a `Write(p)` leaves when its config write succeeds and its data write fails at
`os.Create` are those of `interruptedDisk`. -/
theorem Write_data_fault_disk (L : Library) (db : DB) (d : Disk) (old p : Bytes)
    (hd : d.dbFile = some old) (hc : db.cfg.Checksum ≠ genChecksum L (p ++ [10])) :
    (DB.Write L db d p .ok .create).2.1 = interruptedDisk L old db.cfg.ID p := by
  simp [DB.Write, hc, writeDBCfg, writeDBFile, interruptedDisk, hd]

/-- C14. On the files an interrupted `Write(p)` leaves behind (config file with the checksum
of `p` plus terminator, data file with the old payload, whose digest is another one), `Start`
of a new store succeeds and its in-memory checksum is the digest of the bytes in the data
file; the next `Write(p)` is not skipped: it returns the length of `p` plus terminator and
the data file holds `p` plus the terminator afterwards. -/
theorem start_heals_interrupted_write (L : Library) (old : Bytes) (id : Int) (p : Bytes)
    (h : genChecksum L (p ++ [10]) ≠ genChecksum L old) :
    DB.Start L NewDB (interruptedDisk L old id p) false false
      = ({ cfg := { ID := id, Checksum := genChecksum L old }, db := old },
          interruptedDisk L old id p, none) ∧
    DB.Write L { cfg := { ID := id, Checksum := genChecksum L old }, db := old }
        (interruptedDisk L old id p) p .ok .ok
      = ({ cfg := { ID := id, Checksum := genChecksum L (p ++ [10]) }, db := p ++ [10] },
          { dbFile := some (p ++ [10]),
            cfgFile := some (.json { ID := id, Checksum := genChecksum L (p ++ [10]) }) },
          ((p ++ [10]).length : Int), none) := by
  constructor
  · simp [DB.Start, interruptedDisk, readCfgFile, readDBFile, NewDB]
  · simp [DB.Write, interruptedDisk, writeDBCfg, writeDBFile, Ne.symm h]

/-- Witness of C14: old payload of two bytes, new payload of three bytes. -/
theorem start_heals_interrupted_write_witness :
    genChecksum exampleLibrary ([91, 49, 93] ++ [10]) ≠ genChecksum exampleLibrary [91, 93] ∧
    (DB.Start exampleLibrary NewDB (interruptedDisk exampleLibrary [91, 93] 4 [91, 49, 93])
      false false).1.cfg.Checksum = genChecksum exampleLibrary [91, 93] :=
  ⟨by decide,
    congrArg (fun out => out.1.cfg.Checksum)
      (start_heals_interrupted_write exampleLibrary [91, 93] 4 [91, 49, 93] (by decide)).1⟩

/-- After a `Write(p)` that passed the checksum test and failed on a file, the in-memory
checksum is that of `p` and the next `Write(p)` is skipped. -/
theorem Write_failed_then_skipped (L : Library) (db : DB) (d : Disk) (p : Bytes)
    (f1 f2 g1 g2 : Fault) (hc : db.cfg.Checksum ≠ genChecksum L (p ++ [10]))
    (herr : (DB.Write L db d p f1 f2).2.2.2 ≠ none) :
    (DB.Write L db d p f1 f2).1.cfg.Checksum = genChecksum L (p ++ [10]) ∧
    (DB.Write L db d p f1 f2).1.db = db.db ∧
    DB.Write L (DB.Write L db d p f1 f2).1 (DB.Write L db d p f1 f2).2.1 p g1 g2
      = ((DB.Write L db d p f1 f2).1, (DB.Write L db d p f1 f2).2.1, 0, none) := by
  cases f1 <;> cases f2 <;> simp [DB.Write, hc, writeDBCfg, writeDBFile] at herr ⊢

/-- C20 (fails on the code). On a store started without files, a `Write` of three bytes whose
data-file write fails returns an error, yet the in-memory checksum is now that of the
payload (the cached payload is unchanged); the next `Write` of the same payload, with a
healthy file system, returns `(0, nil)` and the data file still has its old content. The
same happens when the config-file write is the one that fails. -/
theorem failed_write_is_not_retried :
    ((DB.Write exampleLibrary (freshStore exampleLibrary).db (freshStore exampleLibrary).disk
        [91, 49, 93] .ok .create).2.2.2 ≠ none ∧
      (DB.Write exampleLibrary (freshStore exampleLibrary).db (freshStore exampleLibrary).disk
        [91, 49, 93] .ok .create).1.cfg.Checksum
        ≠ (freshStore exampleLibrary).db.cfg.Checksum ∧
      (DB.Write exampleLibrary (freshStore exampleLibrary).db (freshStore exampleLibrary).disk
        [91, 49, 93] .ok .create).1.db = (freshStore exampleLibrary).db.db ∧
      (DB.Write exampleLibrary
        (DB.Write exampleLibrary (freshStore exampleLibrary).db
          (freshStore exampleLibrary).disk [91, 49, 93] .ok .create).1
        (DB.Write exampleLibrary (freshStore exampleLibrary).db
          (freshStore exampleLibrary).disk [91, 49, 93] .ok .create).2.1
        [91, 49, 93] .ok .ok).2.2 = (0, none) ∧
      (DB.Write exampleLibrary
        (DB.Write exampleLibrary (freshStore exampleLibrary).db
          (freshStore exampleLibrary).disk [91, 49, 93] .ok .create).1
        (DB.Write exampleLibrary (freshStore exampleLibrary).db
          (freshStore exampleLibrary).disk [91, 49, 93] .ok .create).2.1
        [91, 49, 93] .ok .ok).2.1.dbFile = some []) ∧
    ((DB.Write exampleLibrary (freshStore exampleLibrary).db (freshStore exampleLibrary).disk
        [91, 49, 93] .create .ok).2.2.2 ≠ none ∧
      (DB.Write exampleLibrary (freshStore exampleLibrary).db (freshStore exampleLibrary).disk
        [91, 49, 93] .create .ok).1.cfg.Checksum
        ≠ (freshStore exampleLibrary).db.cfg.Checksum ∧
      (DB.Write exampleLibrary
        (DB.Write exampleLibrary (freshStore exampleLibrary).db
          (freshStore exampleLibrary).disk [91, 49, 93] .create .ok).1
        (DB.Write exampleLibrary (freshStore exampleLibrary).db
          (freshStore exampleLibrary).disk [91, 49, 93] .create .ok).2.1
        [91, 49, 93] .ok .ok).2.2 = (0, none) ∧
      (DB.Write exampleLibrary
        (DB.Write exampleLibrary (freshStore exampleLibrary).db
          (freshStore exampleLibrary).disk [91, 49, 93] .create .ok).1
        (DB.Write exampleLibrary (freshStore exampleLibrary).db
          (freshStore exampleLibrary).disk [91, 49, 93] .create .ok).2.1
        [91, 49, 93] .ok .ok).2.1.dbFile = some []) := by
  decide

/-! ## retry, grooming and the notifier -/

/-- C15. For every reminder `r` whose id is a key of `All`, holding the entry `e`: after
`retry(r)` at the instant `now`, `All` and `Uncompleted` both map the id of `r` to the same
entry, whose index is the index of `e` and whose reminder has `modified_at = now`, a
duration equal to the retry period of `r`, and the id, title, message, retry period and
`created_at` of `r`; the entries of all other ids are unchanged in both maps. A further
`retry` of the stored reminder, at any later reading, again stores the retry period of `r` as
duration: the delay does not grow with the number of retries. -/
theorem retry_reschedules {σ : Type} (rs : Reminders σ) (r : Reminder) (now : Time)
    (e : Entry) (h : rs.Snapshot.All.lookup r.ID = some e) :
    (retry rs r now).Snapshot.All.lookup r.ID = some
      ⟨e.index,
        { ID := r.ID, Title := r.Title, Message := r.Message, Duration := r.RetryPeriod,
          RetryPeriod := r.RetryPeriod, CreatedAt := r.CreatedAt, ModifiedAt := now }⟩ ∧
    (retry rs r now).Snapshot.Uncompleted.lookup r.ID
      = (retry rs r now).Snapshot.All.lookup r.ID ∧
    (∀ k, k ≠ r.ID →
      (retry rs r now).Snapshot.All.lookup k = rs.Snapshot.All.lookup k ∧
      (retry rs r now).Snapshot.Uncompleted.lookup k = rs.Snapshot.Uncompleted.lookup k) ∧
    (∀ (later : Time),
      (retry (retry rs r now) { r with Duration := r.RetryPeriod, ModifiedAt := now }
        later).Snapshot.All.lookup r.ID = some
        ⟨e.index,
          { ID := r.ID, Title := r.Title, Message := r.Message, Duration := r.RetryPeriod,
            RetryPeriod := r.RetryPeriod, CreatedAt := r.CreatedAt,
            ModifiedAt := later }⟩) := by
  refine ⟨?_, ?_, ?_, ?_⟩
  · simp [retry, flatten, h]
  · simp [retry]
  · intro k hk
    simp [retry, AList.lookup_insert_ne hk]
  · intro later
    simp [retry, flatten, h]

/-- Witness of C15: a retry of the stored reminder of the one-reminder service. -/
theorem retry_reschedules_witness :
    oneRent.Snapshot.All.lookup rent.ID = some ⟨0, rent⟩ ∧
    (retry oneRent rent 4000).Snapshot.All.lookup rent.ID = some
      ⟨0,
        { ID := 1, Title := "Pay rent", Message := "due today", Duration := 5 * Second,
          RetryPeriod := 5 * Second, CreatedAt := 1000, ModifiedAt := 4000 }⟩ :=
  ⟨by decide, (retry_reschedules oneRent rent 4000 ⟨0, rent⟩ (by decide)).1⟩

/-- C16 as stated fails: after the grooming of the one-hour reminder, the entry retained in
`All` has the duration minus one hour, not the duration of one hour the reminder had. -/
theorem groom_overwrites_duration :
    (oneHour.Snapshot.All.lookup 1).map (fun e => e.reminder.Duration) = some Hour ∧
    (groomed.Snapshot.All.lookup 1).map (fun e => e.reminder.Duration) = some (-Hour) ∧
    (-Hour : Int) ≠ Hour := by
  decide

/-- C16 (amended). For every reminder `r` whose id is a key of `All`, holding the entry `e`:
after the grooming of `r`, the id is not a key of `Uncompleted`; it is still a key of `All`,
whose entry keeps the index of `e` and holds the id, title, message, retry period,
`created_at` and `modified_at` of `r` with the duration overwritten by minus one hour (this
value is the only record of completion); the entries of all other ids are unchanged. -/
theorem groom_marks_by_duration {σ : Type} (rs : Reminders σ) (r : Reminder) (e : Entry)
    (h : rs.Snapshot.All.lookup r.ID = some e) :
    (snapshotGrooming rs [r]).Snapshot.Uncompleted.lookup r.ID = none ∧
    (snapshotGrooming rs [r]).Snapshot.All.lookup r.ID = some
      ⟨e.index,
        { ID := r.ID, Title := r.Title, Message := r.Message, Duration := -Hour,
          RetryPeriod := r.RetryPeriod, CreatedAt := r.CreatedAt,
          ModifiedAt := r.ModifiedAt }⟩ ∧
    (∀ k, k ≠ r.ID →
      (snapshotGrooming rs [r]).Snapshot.All.lookup k = rs.Snapshot.All.lookup k ∧
      (snapshotGrooming rs [r]).Snapshot.Uncompleted.lookup k
        = rs.Snapshot.Uncompleted.lookup k) := by
  refine ⟨?_, ?_, ?_⟩
  · simp [snapshotGrooming, groomOne]
  · simp [snapshotGrooming, groomOne, flatten, h]
  · intro k hk
    simp [snapshotGrooming, groomOne, AList.lookup_insert_ne hk, AList.lookup_erase_ne hk]

/-- Witness of C16 (amended): the grooming of the stored reminder of the one-reminder
service. -/
theorem groom_marks_by_duration_witness :
    oneRent.Snapshot.All.lookup rent.ID = some ⟨0, rent⟩ ∧
    (snapshotGrooming oneRent [rent]).Snapshot.Uncompleted.lookup rent.ID = none :=
  ⟨by decide, (groom_marks_by_duration oneRent rent ⟨0, rent⟩ (by decide)).1⟩

/-- C17. The client of `HTTPClient.Notify` reports completion exactly when the exchange went
through and the action of the response is "dismissed". For every delivery attempt
`notify(r)`, whatever client produced `(res, err)`: if `err` is nil and `res` is completed,
the attempt calls the grooming of `r`, sends `r` once on the completion channel, and does not
call `retry`; in every other case it calls `retry(r)` once and nothing else. -/
theorem notify_grooms_or_retries {σ : Type} (rs : Reminders σ) (r : Reminder)
    (res : NotificationResponse) (err : Option Error) (now : Time) :
    (∀ x : Exchange, ((HTTPClientNotify x).2 = none ∧ (HTTPClientNotify x).1.completed = true)
      ↔ x = .answered "dismissed") ∧
    (err = none ∧ res.completed = true →
      notify rs r res err now
        = (snapshotGrooming rs [r], [.groomCalled r, .completionSent r])) ∧
    (¬ (err = none ∧ res.completed = true) →
      notify rs r res err now = (retry rs r now, [.retryCalled r])) := by
  refine ⟨?_, ?_, ?_⟩
  · intro x
    cases x with
    | marshalFails => simp [HTTPClientNotify]
    | postFails => simp [HTTPClientNotify]
    | decodeFails => simp [HTTPClientNotify]
    | answered action =>
      by_cases ha : action = "dismissed"
      · simp [HTTPClientNotify, ha]
      · simp [HTTPClientNotify, ha]
  · rintro ⟨he, hc⟩
    simp [notify, he, hc]
  · intro hn
    cases err with
    | some e => simp [notify]
    | none =>
      have hc : res.completed = false := by
        cases hres : res.completed with
        | false => rfl
        | true => exact absurd ⟨rfl, hres⟩ hn
      simp [notify, hc]

/-- Witness of C17: a dismissed notification and a failed post, on the one-reminder
service. -/
theorem notify_grooms_or_retries_witness :
    (((HTTPClientNotify (.answered "dismissed")).2 = none ∧
        (HTTPClientNotify (.answered "dismissed")).1.completed = true) ∧
      (notify oneRent rent (HTTPClientNotify (.answered "dismissed")).1
        (HTTPClientNotify (.answered "dismissed")).2 4000).2
        = [.groomCalled rent, .completionSent rent]) ∧
    (¬ ((HTTPClientNotify .postFails).2 = none ∧
        (HTTPClientNotify .postFails).1.completed = true) ∧
      (notify oneRent rent (HTTPClientNotify .postFails).1 (HTTPClientNotify .postFails).2
        4000).2 = [.retryCalled rent]) :=
  ⟨⟨by decide,
      congrArg Prod.snd
        ((notify_grooms_or_retries oneRent rent (HTTPClientNotify (.answered "dismissed")).1
          (HTTPClientNotify (.answered "dismissed")).2 4000).2.1 (by decide))⟩,
    ⟨by decide,
      congrArg Prod.snd
        ((notify_grooms_or_retries oneRent rent (HTTPClientNotify .postFails).1
          (HTTPClientNotify .postFails).2 4000).2.2 (by decide))⟩⟩

/-- C18 as stated fails: on a tick whose two clock readings are both the due time of the
reminder of the one-reminder service, `now <= due_at < now + 1s` holds and the reminder is
not dispatched. -/
theorem tick_skips_due_now :
    (oneRent.Snapshot.Uncompleted.lookup 1) = some ⟨0, rent⟩ ∧
    ((1000 + 2 * Second : Int) ≤ rent.ModifiedAt + rent.Duration ∧
      rent.ModifiedAt + rent.Duration < 1000 + 2 * Second + Second) ∧
    tickDispatch oneRent.Snapshot (fun _ => (1000 + 2 * Second, 1000 + 2 * Second)) = [] := by
  decide

theorem mem_tickDispatch (s : Snapshot) (clock : Int → Time × Time) (id : Int) (e : Entry)
    (h : s.Uncompleted.lookup id = some e) :
    (id, e.reminder) ∈ tickDispatch s clock
      ↔ dueOnTick e.reminder (clock id).1 (clock id).2 = true := by
  have hk : id ∈ s.Uncompleted.keys := by
    rw [← AList.mem_keys, ← AList.lookup_isSome, h]
    rfl
  simp only [tickDispatch, List.mem_map, List.mem_filter]
  constructor
  · rintro ⟨k, ⟨_, hd⟩, hp⟩
    simp only [Prod.mk.injEq] at hp
    obtain ⟨rfl, _⟩ := hp
    simpa [flatten, h] using hd
  · intro hd
    exact ⟨id, ⟨hk, by simpa [flatten, h] using hd⟩, by simp [flatten, h]⟩

/-- C18 (amended). On a notifier tick, with `t1` and `t2` the two clock readings taken for
a reminder of `Uncompleted` (`t1` first) and all three instants within the int64 range: the
reminder is dispatched if and only if `t1 < due_at < t2 + 1s`, where
`due_at = modified_at + duration`. Both bounds are strict: a reminder whose `due_at` equals
`t1` is not dispatched, nor one whose `due_at` equals `t2 + 1s`. -/
theorem tick_dispatch_window (s : Snapshot) (clock : Int → Time × Time) (id : Int) (e : Entry)
    (h : s.Uncompleted.lookup id = some e)
    (hd1 : -2 ^ 63 ≤ e.reminder.ModifiedAt + e.reminder.Duration)
    (hd2 : e.reminder.ModifiedAt + e.reminder.Duration < 2 ^ 63)
    (h11 : -2 ^ 63 ≤ (clock id).1) (h12 : (clock id).1 < 2 ^ 63)
    (h21 : -2 ^ 63 ≤ (clock id).2 + Second) (h22 : (clock id).2 + Second < 2 ^ 63) :
    ((id, e.reminder) ∈ tickDispatch s clock
      ↔ (clock id).1 < e.reminder.ModifiedAt + e.reminder.Duration ∧
        e.reminder.ModifiedAt + e.reminder.Duration < (clock id).2 + Second) ∧
    (e.reminder.ModifiedAt + e.reminder.Duration = (clock id).1 →
      (id, e.reminder) ∉ tickDispatch s clock) ∧
    (e.reminder.ModifiedAt + e.reminder.Duration = (clock id).2 + Second →
      (id, e.reminder) ∉ tickDispatch s clock) := by
  have hiff : (id, e.reminder) ∈ tickDispatch s clock
      ↔ (clock id).1 < e.reminder.ModifiedAt + e.reminder.Duration ∧
        e.reminder.ModifiedAt + e.reminder.Duration < (clock id).2 + Second := by
    rw [mem_tickDispatch s clock id e h]
    simp only [dueOnTick, Time.UnixNano, Time.Add, wrapInt64_eq _ hd1 hd2,
      wrapInt64_eq _ h11 h12, wrapInt64_eq _ h21 h22, Bool.and_eq_true, decide_eq_true_eq,
      gt_iff_lt]
  refine ⟨hiff, ?_, ?_⟩
  · intro heq hmem
    have := (hiff.1 hmem).1
    rw [heq] at this
    exact lt_irrefl _ this
  · intro heq hmem
    have := (hiff.1 hmem).2
    rw [heq] at this
    exact lt_irrefl _ this

/-- Witness of C18 (amended): the reminder of the one-reminder service, due at 1000 plus two
seconds, on a tick read at 1000 plus one and a half seconds. -/
theorem tick_dispatch_window_witness :
    (oneRent.Snapshot.Uncompleted.lookup 1 = some ⟨0, rent⟩ ∧
      (-2 ^ 63 ≤ rent.ModifiedAt + rent.Duration ∧ rent.ModifiedAt + rent.Duration < 2 ^ 63) ∧
      (-2 ^ 63 ≤ (1500001000 : Int) ∧ (1500001000 : Int) < 2 ^ 63) ∧
      (-2 ^ 63 ≤ (1500001050 : Int) + Second ∧ (1500001050 : Int) + Second < 2 ^ 63)) ∧
    ((1, rent) ∈ tickDispatch oneRent.Snapshot (fun _ => (1500001000, 1500001050))
      ↔ (1500001000 : Int) < rent.ModifiedAt + rent.Duration ∧
        rent.ModifiedAt + rent.Duration < 1500001050 + Second) :=
  ⟨by decide,
    (tick_dispatch_window oneRent.Snapshot (fun _ => (1500001000, 1500001050)) 1 ⟨0, rent⟩
      (by decide) (by decide) (by decide) (by decide) (by decide) (by decide) (by decide)).1⟩

/-! ## A deleted reminder and the notifier hooks -/

/-- C21 (fails on the code). Neither `retry` nor `snapshotGrooming` tests whether the id of
the reminder is a key of `All`: after `retry(r)` the id of `r` is always a key of `All` and
of `Uncompleted`, and after the grooming of `r` it is always a key of `All`. On the service
whose only reminder was deleted, `retry` of that reminder puts it back into both maps, at
index 0; its grooming puts it back into `All` (not into `Uncompleted`); and a delivery
attempt whose post fails puts it back through `retry`. -/
theorem retry_restores_deleted_reminder :
    (∀ (σ : Type) (rs : Reminders σ) (r : Reminder) (now : Time),
      ((retry rs r now).Snapshot.All.lookup r.ID).isSome = true ∧
      ((retry rs r now).Snapshot.Uncompleted.lookup r.ID).isSome = true ∧
      ((snapshotGrooming rs [r]).Snapshot.All.lookup r.ID).isSome = true) ∧
    (afterDelete.Snapshot.All.lookup rent.ID = none ∧
      afterDelete.Snapshot.Uncompleted.lookup rent.ID = none) ∧
    ((retry afterDelete rent 4000).Snapshot.All.lookup rent.ID
        = some ⟨0, { rent with Duration := 5 * Second, ModifiedAt := 4000 }⟩ ∧
      (retry afterDelete rent 4000).Snapshot.Uncompleted.lookup rent.ID
        = some ⟨0, { rent with Duration := 5 * Second, ModifiedAt := 4000 }⟩) ∧
    ((snapshotGrooming afterDelete [rent]).Snapshot.All.lookup rent.ID
        = some ⟨0, { rent with Duration := -Hour }⟩ ∧
      (snapshotGrooming afterDelete [rent]).Snapshot.Uncompleted.lookup rent.ID = none) ∧
    ((notify afterDelete rent (HTTPClientNotify .postFails).1 (HTTPClientNotify .postFails).2
        4000).1.Snapshot.All.lookup rent.ID).isSome = true := by
  refine ⟨?_, by decide, by decide, by decide, by decide⟩
  intro σ rs r now
  simp [retry, snapshotGrooming, groomOne]

/-! ## The router -/

/-- When no route panics in `populate` and the key of the request is not in `routesMap`,
`ServeHTTP` sends the not-found error and then dereferences the nil route. -/
theorem ServeHTTP_of_miss {H : Type} (rx : Regexp) (m : RegexMux H) (r : Request)
    (routes : List (route H)) (routesMap : AList (fun _ : String => route H))
    (hfold : m.routes.foldl (populateRoute rx r) ([], ∅, none) = (routes, routesMap, none))
    (hmiss : routesMap.lookup (r.Method ++ r.Path) = none) :
    ServeHTTP rx m r
      = ({ routes := routes }, [.NotFoundError ""], .panicked .nilDereference) := by
  simp [ServeHTTP, hfold, hmiss]

/-- C22 (fails on the code). On a mux without routes every request, with any regexp library,
gets the not-found error and then the nil dereference of `len(rt.params)`: `ServeHTTP` does
not return after `transport.SendError`. On the mux of the server the same happens for
`GET /nothing`, `GET /reminders/abc` and `PUT /health`, while `GET /health` and
`GET /reminders/1,2` reach their handlers without an error being sent. -/
theorem serve_unmatched_dereferences_nil :
    (∀ (H : Type) (rx : Regexp) (r : Request),
      ServeHTTP rx ({ routes := [] } : RegexMux H) r
        = ({ routes := [] }, [.NotFoundError ""], .panicked .nilDereference)) ∧
    ((ServeHTTP serverRegexp serverMux { Method := "GET", Path := "/nothing" }).2.1
        = [.NotFoundError ""] ∧
      (ServeHTTP serverRegexp serverMux { Method := "GET", Path := "/nothing" }).2.2.panic
        = some .nilDereference) ∧
    ((ServeHTTP serverRegexp serverMux { Method := "GET", Path := "/reminders/abc" }).2.1
        = [.NotFoundError ""] ∧
      (ServeHTTP serverRegexp serverMux { Method := "GET", Path := "/reminders/abc" }).2.2.panic
        = some .nilDereference) ∧
    ((ServeHTTP serverRegexp serverMux { Method := "PUT", Path := "/health" }).2.1
        = [.NotFoundError ""] ∧
      (ServeHTTP serverRegexp serverMux { Method := "PUT", Path := "/health" }).2.2.panic
        = some .nilDereference) ∧
    ((ServeHTTP serverRegexp serverMux { Method := "GET", Path := "/health" }).2.1 = [] ∧
      (ServeHTTP serverRegexp serverMux { Method := "GET", Path := "/health" }).2.2.handler
        = some .health) ∧
    ((ServeHTTP serverRegexp serverMux { Method := "GET", Path := "/reminders/1,2" }).2.1 = [] ∧
      (ServeHTTP serverRegexp serverMux { Method := "GET", Path := "/reminders/1,2" }).2.2.handler
        = some .fetchReminders) := by
  refine ⟨?_, by decide, by decide, by decide, by decide, by decide⟩
  intro H rx r
  rfl

end RemindersCli
